import Mathlib

/-!
Verification development for the roster-normalization / personnel-matching
automation.  Python source constructs are shallowly embedded: Python `str`
values that need character-level reasoning are embedded as `List Char`,
JSON-like payloads as the inductive `JVal`, fallible resolution as `Option`.
-/

namespace VSA

/-- Embeds the order-preserving deduplication loop used by the source
(`seen`-set plus append in `build_roster_structure`, and `dict.fromkeys`
in `_name_variants`): the accumulator holds the output so far, a new
element is appended only when it is not already present. -/
def pyDedupLoop [DecidableEq α] : List α → List α → List α
  | acc, [] => acc
  | acc, n :: rest =>
    if n ∈ acc then pyDedupLoop acc rest else pyDedupLoop (acc ++ [n]) rest

/-- Order-preserving dedup starting from an empty accumulator. -/
def pyDedup [DecidableEq α] (l : List α) : List α := pyDedupLoop [] l

/-- Modelled from the spec's words ("dedup across all units, first-seen
order preserved"): keep the first occurrence of each element, drop the
later ones.  Used as the reference point the source's loop is compared
against. -/
def keepFirsts [DecidableEq α] : List α → List α
  | [] => []
  | a :: as => a :: keepFirsts (as.filter (fun x => x ≠ a))
termination_by l => l.length
decreasing_by
  simp only [List.length_cons]
  exact Nat.lt_succ_of_le (List.length_filter_le _ _)

/-! ## Python string primitives over `List Char` -/

/-- Characters treated as whitespace by the embedded `str.strip` / `str.split`. -/
def isWs (c : Char) : Bool := c.isWhitespace

/-- Drop trailing whitespace (the right half of Python `str.strip`). -/
def dropTrailWs (s : List Char) : List Char :=
  (s.reverse.dropWhile isWs).reverse

/-- Embeds Python `str.strip()`: drop leading and trailing whitespace. -/
def pyStrip (s : List Char) : List Char := dropTrailWs (s.dropWhile isWs)

/-- Embeds Python `str.split()` (split on whitespace runs, dropping empties). -/
def pySplitWs : List Char → List (List Char)
  | [] => []
  | c :: cs =>
    if isWs c then pySplitWs cs
    else (c :: cs.takeWhile (fun x => ¬ isWs x)) ::
      pySplitWs (cs.dropWhile (fun x => ¬ isWs x))
termination_by l => l.length
decreasing_by
  · simp only [List.length_cons]; exact Nat.lt_succ_self _
  · simp only [List.length_cons]
    exact Nat.lt_succ_of_le ((List.dropWhile_sublist _).length_le)

/-- Left part of Python `s.split(",", 1)` (everything before the first comma). -/
def splitCommaL (s : List Char) : List Char := s.takeWhile (fun c => c ≠ ',')

/-- Right part of Python `s.split(",", 1)` (everything after the first comma). -/
def splitCommaR (s : List Char) : List Char :=
  (s.dropWhile (fun c => c ≠ ',')).tail

/-- Embeds `sanitize` from `training-bot.py`: `(s or "").strip()`. -/
def sanitize (s : List Char) : List Char := pyStrip s

/-- Embeds `ensure_last_first` from `training-bot.py` (lines 124-137): accept
"First Last" or "Last, First" and normalize to "Last, First"; single tokens
and empty strings pass through. -/
def ensure_last_first (name0 : List Char) : List Char :=
  let name := sanitize name0
  if name = [] then name
  else if ',' ∈ name then
    pyStrip (splitCommaL name) ++ ',' :: ' ' :: pyStrip (splitCommaR name)
  else
    let parts := pySplitWs name
    if parts.length ≥ 2 then
      parts.getLastD [] ++ ',' :: ' ' :: parts.headD []
    else name

/-! ## Name variants (`_name_variants`, training-bot.py lines 1522-1539) -/

/-- Try the regex `,\s*([A-Za-z]+)\s+([A-Za-z]\.)` at one position (which must
start with a comma): whitespace run, a letter run (group 1), a whitespace run,
then a single letter followed by a literal dot (group 2).  The character
classes of adjacent quantifiers are disjoint, so greedy matching without
backtracking is exact. -/
def matchMidAt : List Char → Option (List Char × Char)
  | ',' :: rest =>
    let r1 := rest.dropWhile isWs
    let letters := r1.takeWhile (fun c => c.isAlpha)
    if letters.isEmpty then none
    else
      let r2 := r1.dropWhile (fun c => c.isAlpha)
      if (r2.takeWhile isWs).isEmpty then none
      else
        match r2.dropWhile isWs with
        | c :: '.' :: _ => if c.isAlpha then some (letters, c) else none
        | _ => none
  | _ => none

/-- Leftmost search for the middle-initial pattern (Python `re.search`). -/
def findMid : List Char → Option (List Char × Char)
  | [] => none
  | c :: rest => (matchMidAt (c :: rest)).orElse (fun _ => findMid rest)

/-- Common tail of `_name_variants`: the two base variants, the optional
middle-initial variant, and the `dict.fromkeys` order-preserving dedup. -/
def nv_core (s last first : List Char) : List (List Char) :=
  let base := [last ++ ',' :: ' ' :: first, first ++ ' ' :: last]
  pyDedup (match findMid s with
    | some (f2, mi) => base ++ [f2 ++ ' ' :: mi :: ' ' :: last]
    | none => base)

/-- Embeds `_name_variants` from `training-bot.py` (lines 1522-1539). -/
def name_variants (last_first : List Char) : List (List Char) :=
  let s := pyStrip last_first
  if ',' ∈ s then
    nv_core s (pyStrip (splitCommaL s)) (pyStrip (splitCommaR s))
  else
    let parts := pySplitWs s
    if parts.length ≥ 2 then nv_core s (parts.getLastD []) (parts.headD [])
    else [s]

/-! ## Roster flat list (`build_roster_structure`, assignments_gui.py 76-124) -/

/-- The flat-list accumulation loop of `build_roster_structure`: each unit
record is reduced here to its resolved unit name and member names; records
whose unit name strips to empty are skipped, the remaining ones extend the
flat list with their non-empty member names in order. -/
def roster_flat : List (String × List String) → List String
  | [] => []
  | u :: rest =>
    if pyStrip u.1.toList = [] then roster_flat rest
    else (u.2.filter (fun n => n ≠ "")) ++ roster_flat rest

/-- Embeds the `seen`-set deduplication of the flat list
(assignments_gui.py lines 110-117). -/
def flat_unique (flat : List String) : List String := pyDedupLoop [] flat

/-- The roster's `flat` field: deduplicated flat name list over all units. -/
def build_flat (units : List (String × List String)) : List String :=
  flat_unique (roster_flat units)

/-! ## Payload unwrapper (`_unwrap_units`, assignments_gui.py 217-253) -/

/-- JSON-like values as produced by `json.loads`. -/
inductive JVal where
  | jnull : JVal
  | jbool : Bool → JVal
  | jnum : Int → JVal
  | jstr : String → JVal
  | jarr : List JVal → JVal
  | jobj : List (String × JVal) → JVal

/-- The known wrapper keys, in the source's tuple order. -/
def WRAPPER_KEYS : List String := ["d", "results", "value", "Units", "units", "Data", "data"]

/-- Python `k in payload` plus `payload[k]` on a mapping (association list,
insertion order preserved as `json.loads` does for objects). -/
def jlookup (m : List (String × JVal)) (k : String) : Option JVal :=
  (m.find? (fun kv => kv.1 = k)).map (fun kv => kv.2)

/-- The `isinstance(v, list)` refinement: the payload as a list, when it is one. -/
def asArr : JVal → Option (List JVal)
  | JVal.jarr xs => some xs
  | _ => none

/-- Case 2 of `_unwrap_units`: first known wrapper key holding a list. -/
def findWrapperArr (m : List (String × JVal)) : Option (List JVal) :=
  WRAPPER_KEYS.findSome? (fun k => (jlookup m k).bind asArr)

/-- The list-valued entries of a mapping, in order (case 3's `list_values`). -/
def listVals (m : List (String × JVal)) : List (List JVal) :=
  m.filterMap (fun kv => asArr kv.2)

/-- Case 4 of `_unwrap_units`: a wrapper-keyed value that is itself a mapping
with some list inside, one level deeper. -/
def nestedWrapperArr (m : List (String × JVal)) : Option (List JVal) :=
  WRAPPER_KEYS.findSome? (fun k =>
    match jlookup m k with
    | some (JVal.jobj m2) => m2.findSome? (fun kv => asArr kv.2)
    | _ => none)

/-- Embeds `_unwrap_units`.  `parse` abstracts `json.loads` (an external
library); the fuel bounds the string-reparse recursion, which in Python
terminates because re-parsing strictly shrinks the payload.  `none` models
the final `raise` (the spec's `ShapeError`). -/
def unwrap_units (parse : String → Option JVal) : Nat → JVal → Option (List JVal)
  | _, JVal.jarr xs => some xs
  | _, JVal.jobj m =>
    (match findWrapperArr m with
     | some l => some l
     | none =>
       match listVals m with
       | [l] => some l
       | _ =>
         match nestedWrapperArr m with
         | some l => some l
         | none => none)
  | fuel + 1, JVal.jstr s => (parse s).bind (unwrap_units parse fuel)
  | 0, JVal.jstr _ => none
  | _, JVal.jnull => none
  | _, JVal.jbool _ => none
  | _, JVal.jnum _ => none

/-! ## Roster unit filter (`filter_roster_by_units`, training-bot.py 188-221) -/

/-- Python `str.upper()` (ASCII inputs are what reach it here). -/
def toUpperL (l : List Char) : List Char := l.map Char.toUpper

/-- Embeds `normalize_unit`: `(u or "").strip().upper()`. -/
def normalize_unit (s : String) : String := String.mk (toUpperL (pyStrip s.toList))

/-- Python `str()` of a JSON value as applied to unit-id fields.  Containers
are given placeholder renderings: their Python `repr` is irrelevant here, as
no theorem below depends on `pyStr`'s output on containers. -/
def pyStr : JVal → String
  | JVal.jnull => "None"
  | JVal.jbool b => if b then "True" else "False"
  | JVal.jnum n => toString n
  | JVal.jstr s => s
  | JVal.jarr _ => "[...]"
  | JVal.jobj _ => "{...}"

/-- The unit-id key aliases tried by `_item_unit_value`, in order. -/
def UNIT_KEYS : List String :=
  ["Unit", "UnitID", "UnitName", "UnitNumber", "Apparatus", "Resource", "CallSign"]

/-- Embeds `_item_unit_value` (training-bot.py 182-187). -/
def item_unit_value (item : List (String × JVal)) : String :=
  match UNIT_KEYS.findSome? (fun k => jlookup item k) with
  | some v => normalize_unit (pyStr v)
  | none => ""

/-- Embeds the inner `matches` predicate of `filter_roster_by_units`. -/
def matchesUnit (wanted : List String) : JVal → Bool
  | JVal.jobj item =>
    let v := item_unit_value item
    v ≠ "" && (wanted.any (fun w => w = v) ||
      wanted.any (fun w => w.toList.isPrefixOf v.toList))
  | _ => false

/-- The keep-condition for items of a list-shaped roster: a mapping that
matches, or a mapping one of whose list values holds a matching mapping. -/
def listItemKeep (wanted : List String) : JVal → Bool
  | JVal.jobj m =>
    matchesUnit wanted (JVal.jobj m) || m.any (fun kv =>
      match kv.2 with
      | JVal.jarr ys => ys.any (fun i => matchesUnit wanted i)
      | _ => false)
  | _ => false

/-- Embeds the inner `filter_any` of `filter_roster_by_units`. -/
def filter_any (wanted : List String) : JVal → JVal
  | JVal.jarr xs => JVal.jarr (xs.filter (listItemKeep wanted))
  | JVal.jobj m =>
    let out := m.filterMap (fun kv =>
      match kv.2 with
      | JVal.jarr v =>
        let vv := v.filter (fun x => matchesUnit wanted x)
        if vv.isEmpty then none else some (kv.1, JVal.jarr vv)
      | _ => none)
    if out.isEmpty then JVal.jobj m else JVal.jobj out
  | v => v

/-- The final emptiness test of `filter_roster_by_units`:
`(isinstance(filtered, list) and not filtered) or
 (isinstance(filtered, dict) and filtered == \x7b\x7d)`. -/
def jIsEmptyLike : JVal → Bool
  | JVal.jarr [] => true
  | JVal.jobj [] => true
  | _ => false

/-- Embeds `filter_roster_by_units` (training-bot.py 188-221). -/
def filter_roster_by_units (roster : JVal) (include_units : List String) : JVal :=
  if include_units.isEmpty then roster
  else
    let wanted := include_units.map normalize_unit
    let filtered := filter_any wanted roster
    if jIsEmptyLike filtered then roster else filtered

/-! ## Personnel-match disambiguation (choose_users_and_continue 845-863) -/

/-- Embeds the disambiguation step: with several visible candidates and a
known first-name token, scan for the first candidate whose stripped,
uppercased visible text contains the (already uppercased) token; otherwise
fall back to the first visible candidate. -/
def pick_candidate (cands : List (List Char)) (first_upper : List Char) : Option (List Char) :=
  let narrowed :=
    if cands.length > 1 ∧ first_upper ≠ [] then
      cands.find? (fun txt => decide (first_upper <:+: toUpperL (pyStrip txt)))
    else none
  match narrowed with
  | some t => some t
  | none => cands.head?

/-! ## Selection action order (choose_users_and_continue 866-894) -/

/-- The activation primitives visible in the selection sequence. -/
inductive SelAction where
  | singleClick : SelAction
  | doubleClick : SelAction
  | addControl : SelAction
deriving DecidableEq

/-- Embeds the selection sequence: click the target, then check whether the
name moved into the selected pane (vacuously true when no pane was found);
only on failure double-click and re-check.  Returns the actions performed,
in order, and the final moved flag. -/
def select_candidate (hasPane showAfterClick showAfterDbl : Bool) : List SelAction × Bool :=
  let moved := if hasPane then showAfterClick else true
  if moved then ([SelAction.singleClick], moved)
  else
    let moved2 := if hasPane then showAfterDbl else false
    ([SelAction.singleClick, SelAction.doubleClick], moved2)

/-! ## Per-name outcome accumulation (choose_users_and_continue 780-909) -/

/-- The per-name loop of `choose_users_and_continue`: blank names are
skipped, every other name's outcome is recorded as added (counted) or
missing (collected in order); no outcome aborts the loop.  `matched`
abstracts the whole search-and-select attempt over the name's variants. -/
def process_names (matched : List Char → Bool) : List (List Char) → Nat × List (List Char)
  | [] => (0, [])
  | raw :: rest =>
    let r := pyStrip raw
    let res := process_names matched rest
    if r = [] then res
    else if matched r then (res.1 + 1, res.2)
    else (res.1, r :: res.2)

/-- Embeds the operation's overall shape: the per-name outcomes, and the
continuation click (`_click_continue_from_add_users`), which is reached
unconditionally after the loop. -/
def choose_users_and_continue (matched : List Char → Bool) (names : List (List Char)) :
    (Nat × List (List Char)) × Bool :=
  (process_names matched names, true)

/-! ## Duration field value (fill_core_fields, training-bot.py 333-352) -/

/-- The regex `(\d+(?:\.\d+)?)` searched leftmost: the first digit run,
optionally extended by a dot and a further digit run. -/
def firstNumberTok : List Char → Option (List Char)
  | [] => none
  | c :: cs =>
    if c.isDigit then
      let ds := c :: cs.takeWhile (fun x => x.isDigit)
      some (match cs.dropWhile (fun x => x.isDigit) with
        | '.' :: d2 :: r2 =>
          if d2.isDigit then ds ++ '.' :: d2 :: r2.takeWhile (fun x => x.isDigit)
          else ds
        | _ => ds)
    else firstNumberTok cs

/-- Embeds the duration handling of `fill_core_fields`: strip the scenario's
Duration value, pull the first number out of it, default to "2". -/
def fill_duration_hours (s : List Char) : List Char :=
  match firstNumberTok (pyStrip s) with
  | some t => t
  | none => ['2']

/-- A parse oracle that never parses: used to instantiate `unwrap_units`
at concrete inputs whose resolution never reaches the string case. -/
def jparse0 : String → Option JVal := fun _ => none

/-! ## Date-seeded module selection
(`date_seed` and `main`, build_daily_training_v2.py lines 46-49, 153-160).

The selection is `rng.sample(modules, k)` with
`rng = random.Random(int(sha256(today).hexdigest(), 16) % (2**31 - 1))`.
`hashlib.sha256` and CPython's `random.Random` (MT19937 plus its seeding
and sampling routines) are external libraries the source calls; they are
deterministic and are embedded below over `Nat` so the selection can be
evaluated in the kernel. -/

/-- The constant 2^32, the word modulus of both sha256 and MT19937. -/
def M32 : Nat := 4294967296

/-- Reduce to a 32-bit word. -/
def u32 (x : Nat) : Nat := x % M32

/-- Rotate a 32-bit word right. -/
def rotr (n x : Nat) : Nat := u32 ((x >>> n) ||| (x <<< (32 - n)))

/-- The sha256 round constants (decimal). -/
def shaK : List Nat :=
  [1116352408, 1899447441, 3049323471, 3921009573, 961987163,
   1508970993, 2453635748, 2870763221, 3624381080, 310598401,
   607225278, 1426881987, 1925078388, 2162078206, 2614888103,
   3248222580, 3835390401, 4022224774, 264347078, 604807628,
   770255983, 1249150122, 1555081692, 1996064986, 2554220882,
   2821834349, 2952996808, 3210313671, 3336571891, 3584528711,
   113926993, 338241895, 666307205, 773529912, 1294757372,
   1396182291, 1695183700, 1986661051, 2177026350, 2456956037,
   2730485921, 2820302411, 3259730800, 3345764771, 3516065817,
   3600352804, 4094571909, 275423344, 430227734, 506948616,
   659060556, 883997877, 958139571, 1322822218, 1537002063,
   1747873779, 1955562222, 2024104815, 2227730452, 2361852424,
   2428436474, 2756734187, 3204031479, 3329325298]

/-- The sha256 initial hash words (decimal). -/
def shaH0 : List Nat :=
  [1779033703, 3144134277, 1013904242,
   2773480762, 1359893119, 2600822924,
   528734635, 1541459225]

/-- Big-endian 8-byte rendering of a number (the length field of padding). -/
def beBytes8 (n : Nat) : List Nat :=
  [(n >>> 56) % 256, (n >>> 48) % 256, (n >>> 40) % 256, (n >>> 32) % 256,
   (n >>> 24) % 256, (n >>> 16) % 256, (n >>> 8) % 256, n % 256]

/-- sha256 message padding: 0x80, zeros to 56 mod 64, 8-byte bit length. -/
def padMsg (msg : List Nat) : List Nat :=
  let L := msg.length
  msg ++ 0x80 :: List.replicate ((119 - L % 64) % 64) 0 ++ beBytes8 (8 * L)

/-- Big-endian 32-bit words from bytes. -/
def wordsOfBytes : List Nat → List Nat
  | b0 :: b1 :: b2 :: b3 :: rest => (((b0 * 256 + b1) * 256 + b2) * 256 + b3) :: wordsOfBytes rest
  | _ => []

/-- One message-schedule extension step. -/
def shaExtendStep (w : List Nat) : List Nat :=
  let n := w.length
  let g := fun (k : Nat) => w.getD (n - k) 0
  let s0 := rotr 7 (g 15) ^^^ rotr 18 (g 15) ^^^ (g 15 >>> 3)
  let s1 := rotr 17 (g 2) ^^^ rotr 19 (g 2) ^^^ (g 2 >>> 10)
  w ++ [u32 (g 16 + s0 + g 7 + s1)]

/-- Extend the schedule `k` times (from 16 to 64 words). -/
def shaExtendN : Nat → List Nat → List Nat
  | 0, w => w
  | k + 1, w => shaExtendN k (shaExtendStep w)

/-- One sha256 compression round on the 8-word state. -/
def shaRound (st : List Nat) (ki wi : Nat) : List Nat :=
  match st with
  | [a, b, c, d, e, f, g, h] =>
    let S1 := rotr 6 e ^^^ rotr 11 e ^^^ rotr 25 e
    let ch := (e &&& f) ^^^ ((e ^^^ (M32 - 1)) &&& g)
    let temp1 := u32 (h + S1 + ch + ki + wi)
    let S0 := rotr 2 a ^^^ rotr 13 a ^^^ rotr 22 a
    let maj := (a &&& b) ^^^ (a &&& c) ^^^ (b &&& c)
    let temp2 := u32 (S0 + maj)
    [u32 (temp1 + temp2), a, b, c, u32 (d + temp1), e, f, g]
  | _ => st

/-- Run the 64 rounds. -/
def shaRounds : List Nat → List Nat → List Nat → List Nat
  | ki :: ks, wi :: ws, st => shaRounds ks ws (shaRound st ki wi)
  | _, _, st => st

/-- Process one 64-byte block. -/
def shaBlock (h : List Nat) (block : List Nat) : List Nat :=
  let w := shaExtendN 48 (wordsOfBytes block)
  let st := shaRounds shaK w h
  (h.zip st).map (fun p => u32 (p.1 + p.2))

/-- Process the given number of 64-byte blocks of a padded message
(structural recursion on the block count, so the kernel can evaluate it). -/
def shaBlocksN : Nat → List Nat → List Nat → List Nat
  | 0, h, _ => h
  | n + 1, h, bytes => shaBlocksN n (shaBlock h (bytes.take 64)) (bytes.drop 64)

/-- The sha256 digest of a byte string, as its eight 32-bit words. -/
def sha256Words (msg : List Nat) : List Nat :=
  shaBlocksN ((padMsg msg).length / 64) shaH0 (padMsg msg)

/-- Python `int(sha256(msg).hexdigest(), 16)`: the digest as one big-endian number. -/
def sha256Nat (msg : List Nat) : Nat :=
  (sha256Words msg).foldl (fun acc w => acc * M32 + w) 0

/-- Embeds `date_seed` (build_daily_training_v2.py 46-49): a fixed seed if
configured, else sha256 of today's ISO date string, mod 2^31 - 1.  The date
string is ASCII, so its UTF-8 bytes are the character codes. -/
def date_seed (fixed : Option Int) (todayIso : String) : Nat :=
  match fixed with
  | some f => f.toNat
  | none => sha256Nat (todayIso.toList.map Char.toNat) % (2 ^ 31 - 1)

/-- The constant 2^32 - 1, the 32-bit word mask. -/
def WMASK : Nat := 4294967295

/-- The MT19937 624-word state vector, packed little-endian (word `i` at
bits `32*i`) into a single natural number so the kernel can evaluate state
updates with bignum arithmetic.  Element read. -/
def lgetP (s : Nat) (i : Nat) : Nat := (s >>> (32 * i)) &&& WMASK

/-- Element write of the packed state vector. -/
def lsetP (s : Nat) (i v : Nat) : Nat :=
  s - (lgetP s i <<< (32 * i)) + (v <<< (32 * i))

/-- CPython `init_genrand` tail: build words 1..623. -/
def igLoop : Nat → Nat → Nat → Nat → Nat
  | 0, _, _, acc => acc
  | r + 1, i, prev, acc =>
    let x := u32 (1812433253 * (prev ^^^ (prev >>> 30)) + i)
    igLoop r (i + 1) x (acc ||| (x <<< (32 * i)))

/-- CPython `init_genrand`. -/
def init_genrand (s : Nat) : Nat := igLoop 623 1 (u32 s) (u32 s)

/-- One step of `init_by_array`'s first mixing loop. -/
def ibaStep1 (mt : Nat) (i j : Nat) (key : List Nat) : Nat :=
  let p := lgetP mt (i - 1)
  let t := u32 ((p ^^^ (p >>> 30)) * 1664525)
  lsetP mt i (u32 ((lgetP mt i ^^^ t) + key.getD j 0 + j))

/-- The `init_by_array` first mixing loop with index wraparound; returns the
state and the loop indices, so partial runs compose. -/
def ibaLoop1 (key : List Nat) : Nat → Nat → Nat → Nat → Nat × Nat × Nat
  | 0, i, j, mt => (mt, i, j)
  | k + 1, i, j, mt =>
    let mt2 := ibaStep1 mt i j key
    let i2 := i + 1
    let mt3 := if i2 ≥ 624 then lsetP mt2 0 (lgetP mt2 623) else mt2
    let i3 := if i2 ≥ 624 then 1 else i2
    let j2 := if j + 1 ≥ key.length then 0 else j + 1
    ibaLoop1 key k i3 j2 mt3

/-- One step of `init_by_array`'s second mixing loop. -/
def ibaStep2 (mt : Nat) (i : Nat) : Nat :=
  let p := lgetP mt (i - 1)
  let t := u32 ((p ^^^ (p >>> 30)) * 1566083941)
  lsetP mt i (u32 ((lgetP mt i ^^^ t) + M32 - i))

/-- The `init_by_array` second mixing loop with index wraparound; returns the
state and the index, so partial runs compose. -/
def ibaLoop2 : Nat → Nat → Nat → Nat × Nat
  | 0, i, mt => (mt, i)
  | k + 1, i, mt =>
    let mt2 := ibaStep2 mt i
    let i2 := i + 1
    let mt3 := if i2 ≥ 624 then lsetP mt2 0 (lgetP mt2 623) else mt2
    let i3 := if i2 ≥ 624 then 1 else i2
    ibaLoop2 k i3 mt3

/-- CPython `init_by_array`. -/
def init_by_array (key : List Nat) : Nat :=
  let p := ibaLoop1 key (max 624 key.length) 1 0 (init_genrand 19650218)
  lsetP (ibaLoop2 623 p.2.1 p.1).1 0 2147483648

/-- The 32-bit words of an integer seed, little-endian (CPython
`random_seed`'s key construction).  Fuelled structural recursion; 64 words
cover any seed below 2^2048, far beyond the 31-bit seeds produced here. -/
def keyOfSeedAux : Nat → Nat → List Nat
  | 0, n => [n % M32]
  | f + 1, n => if n < M32 then [n] else n % M32 :: keyOfSeedAux f (n / M32)

/-- The seed key list (little-endian 32-bit words). -/
def keyOfSeed (n : Nat) : List Nat := keyOfSeedAux 64 n

/-- An MT19937 generator state: the packed 624-word vector and the output
index. -/
structure MTState where
  mt : Nat
  mti : Nat

/-- CPython `random.Random(seed)` for an integer seed. -/
def mtFromSeed (seed : Nat) : MTState := ⟨init_by_array (keyOfSeed seed), 624⟩

/-- The twist constant selector. -/
def mag01 (y : Nat) : Nat := if y % 2 = 1 then 0x9908b0df else 0

/-- One state-vector update of the block generation. -/
def genStep (mt : Nat) (kk : Nat) : Nat :=
  let y := (lgetP mt kk &&& 0x80000000) ||| (lgetP mt ((kk + 1) % 624) &&& 0x7fffffff)
  let idx := if kk < 227 then kk + 397 else kk + 397 - 624
  lsetP mt kk (lgetP mt idx ^^^ (y >>> 1) ^^^ mag01 y)

/-- Regenerate the whole 624-word block. -/
def genBlockLoop : Nat → Nat → Nat → Nat
  | 0, _, mt => mt
  | r + 1, kk, mt => genBlockLoop r (kk + 1) (genStep mt kk)

/-- The MT19937 tempering. -/
def temper (y : Nat) : Nat :=
  let y1 := y ^^^ (y >>> 11)
  let y2 := y1 ^^^ (u32 (y1 <<< 7) &&& 0x9d2c5680)
  let y3 := y2 ^^^ (u32 (y2 <<< 15) &&& 0xefc60000)
  y3 ^^^ (y3 >>> 18)

/-- CPython `genrand_uint32`: one 32-bit output plus the successor state. -/
def genrand (st : MTState) : Nat × MTState :=
  let mt := if st.mti ≥ 624 then genBlockLoop 624 0 st.mt else st.mt
  let mti := if st.mti ≥ 624 then 0 else st.mti
  (temper (lgetP mt mti), ⟨mt, mti + 1⟩)

/-- CPython `getrandbits(k)` for `0 < k ≤ 32`: the top `k` bits of one output. -/
def getrandbits32 (st : MTState) (k : Nat) : Nat × MTState :=
  let p := genrand st
  (p.1 >>> (32 - k), p.2)

/-- Fuelled division-by-two counting, the helper behind `bitLen`. -/
def bitLenAux : Nat → Nat → Nat
  | 0, _ => 0
  | f + 1, n => if n = 0 then 0 else bitLenAux f (n / 2) + 1

/-- Python `n.bit_length()` (fuelled structural recursion; 64 bits cover
every pool size reached here). -/
def bitLen (n : Nat) : Nat := bitLenAux 64 n

/-- CPython `random._randbelow(n)`: rejection sampling over `bit_length(n)`-bit
draws.  Fuelled: CPython's loop terminates with probability one, the fuel
only bounds the embedded evaluation. -/
def randbelow : Nat → MTState → Nat → Option (Nat × MTState)
  | 0, _, _ => none
  | fuel + 1, st, n =>
    let p := getrandbits32 st (bitLen n)
    if p.1 < n then some (p.1, p.2) else randbelow fuel p.2 n

/-- CPython `random.sample`'s selection loop for small pools (`n <= setsize`, the
branch taken here): `result[i] = pool[j]; pool[j] = pool[n-i-1]`. -/
def sampleLoop : Nat → Nat → List String → MTState → Nat → Option (List String × MTState)
  | 0, _, _, st, _ => some ([], st)
  | r + 1, i, pool, st, n =>
    match randbelow 100 st (n - i) with
    | none => none
    | some (j, st2) =>
      let x := pool.getD j ""
      let pool2 := pool.set j (pool.getD (n - i - 1) "")
      match sampleLoop r (i + 1) pool2 st2 n with
      | none => none
      | some (res, st3) => some (x :: res, st3)

/-- CPython `rng.sample(pool, k)` for the small-pool branch. -/
def pySample (st : MTState) (pool : List String) (k : Nat) : Option (List String) :=
  (sampleLoop k 0 pool st pool.length).map Prod.fst

/-- Embeds the selection in `main` (build_daily_training_v2.py 153-160):
all modules when `k` covers the pool, otherwise a date-seeded sample. -/
def choose_modules (modules : List String) (k : Nat) (fixed : Option Int)
    (todayIso : String) : Option (List String) :=
  if modules.isEmpty then none
  else if k ≥ modules.length then some modules
  else pySample (mtFromSeed (date_seed fixed todayIso)) modules k

/-- Precomputed stage literal: `init_genrand 19650218` (the fixed state
every `init_by_array` seeding starts from). -/
def mtL1 : Nat := 62685089405509111925910797243914719854890513935494713084094713797279779630627496305943786046941309007281293105221577504421353501605599255248785149356818580886163074212016138319710181437623915839386196989339984175865611290932895638485827512283879634622589907034847096838980553398268338905605705315464924834076955485269257682765843392777664062904318116756644819538761883164862381873685805923051342196114892111881287659915424456096361326051748180740843339721465950121631833352165428366344241754810081140762710579390137795215443629123183303201044796731629341661542390258966032612552126580439913324626563213547393121217728067632048719897064596438939163041106934301355643192260261867872030533878188557727018817797219012064641958276099544136480610826250078810896212505254064619595899307426216931651016613164877613570296351724055264357110051005104450572173606849938075379012356137114572525910752676385589168436483206759652170097284388598518122222819376116616668668677988651997615236221431416155794821321118852088948452164682783715959922435191327367306488124638818446090532334864386359317233873012285172875896330714873881780586230596002778688422250420590175698633544778262136505069053046737202152515000629854634631225453245996997340762744567896897683212149150732909707719966588817675821630380251456266588599804209831660991462715440400663143017564651072677052296295930367391822676512661642282350234567553218318066651318510488484545671729568971887621684270732981974442582657502555066960418690332945218280990034155505553171409775830458482159957769211244505225186771766058316021949327301666418107251589707938065072144733816368743637495699897181007119363672460040974223449086641663004605507793014252452324150238463715514559124307431648478948480649031081489229583165223570218974125422263886587593014744330199975749832650568652404661542746543584685860761547297457070273167102314576665676644281998277713093924236551494770138725647883566971887853912300960949802636372591951717316415323846182747445131420005722224687602711525724505110953736568981699982016588947035894059736087136235396798804019434387781559696138411966704777989194870090051835909943079457649936020314680876367897457337488804889342331824364904005266943816631681518612047693872607083945336048154993001716858914072302230374294986610531277637599664647525761147514008899238689946802093944865612982597431648203028809043429562401771290925843222821220221381984318518256971016750121270624021542153515130386081256853244444367484914891752438843250797295149886721543902585582757118492217204960123203770309672216674331373413106027454841661967870247822106376003696537006476355273043676224973894002060133928765135363584693312631060562155459381152426642778209514491263275588735458188352331628933634618912177576995916817414488324819680108333628484452298807271017999262374749573133359090629722111402666396222385680310709557844049479865847370371052888681758484468279513921172987571336140289500145715018352119752770038578015899178947425013401300127437407370742417936980607757405410607208376626705322894782663757703548808362869195819947150150865798288136994832911439410269353230208345410503242199606186650417333579047848825834242257112060317620885151293421378661990197161958015730358249113963865616811805417654957899792836277351433146683316643158745577273742588847277405020330699298979666450169324546781433015633218213248018986767013905101885085728066131985273947793365444250280947765884488609302913437528001802423347517836456663978922564542901160075954132077499502061844004777463229898312792357201472450520034421742281215395838957029567457078867297742321364249618062920323524100796395855490398720473188748064226082130624085325443879193454095100721902723688608983702297802922465778395428510531587340343771240068168890882622394112252370643121994567113348850616779414952571984309063927162547038575769391208822294299053225776973195785292510157058775147687493667385905281728614066936870793483631104130486096422866739022254251631022238998824784309871214211336594149372534724828516536519652291847191320934127662041939033266344757810255450761243406685982638804631309022215852991706323223872506356963395668107287976200691035733250165615782065576159415303394415966535152327550107294310945533761757937224536792146711105700674959937207778503501562879445241463662142281185819506210181780721218897488871995890898495582077564387715740371190275817001449471008660140255770382875594805433223352833476546594040372715841292252983175468170554585838014797017976570586587751089146553833551413146641975370517778330202052282190648141351908509904289169596729111939424597802445523234111653813513351586367960175769546506050051493655326103823629699245586418016468660736051425039803522537493270385743437525903109563398688573456345292160567787373069854610200635728800730405759403691875432721043746233636765094325962472698626875833148826372580999341547042531665331710768365982359935219565301595187067772247975847412037958098451506998773182171027695752045356894447709388159633645629545493246019135820915900506906032640701290570506299065346661219735445730896769091171352761432210047450382980030625592142825700677633624952217795344145832513082782540989616413040988227257601039794195623143595351637462190706636535912449334420058581521218743569834717812580171279915160794789675762903718339466089866492140118823551337811927493524761760551434001520245324751568861558716803095718510972066599595072196209156923318071322517301806566620458899402166430591631348363311478802800521980525250372511467674969151489645720009661369785217086930227581405674315978920044798755483144811069077253851302610194739624245401270682864202663540116818822475326676741780611737275972111438408802370422377608919256570335384654037352344114105999356653180812503717835632673409647782213628400383443178293619326757139369589058612122088577237252104060778375287897543799460272211546791798613974575310224299012205778134871255296492395729078221387894808011355820153110205338707003138385845672884757408327786763143168159295742358655797897448897721796416755370

/-- Precomputed stage literal: the state after `init_by_array`'s first
mixing loop for the date seed 1383577440 (sha256("2025-01-02") mod 2^31-1). -/
def mtL2 : Nat := 7744760246829771585363380115096172746462910754279252975558409097043452246490972211123162191707151986613532510649165806867975188278944503616913591836386152392893372114959199757206976803046207358306984999380545600798101302619888109794212906813256194711383656463931724646114311896633629890546498722518387116014597606633547016906276041607938440899380943930148044081792047648550510024881605416895879678499838746287754593115155660914991795298127123753340691901653577891379927883520507029374631256198931910505387774755500729984604577793149928389401646466437680001670191259273990537684499444171507926934833339294786060339484442339870154609434009899819990993788411615943704063998963163771437402970564912279216807999195980089541925929646225218596246685083932408574988382067352736478927131875145916208183431604480036232184033828796416484037487999257732581545257567422571623169640594566311869956139911623598490039055434470351447179387539441480287161438245155320311954602021785064664309540307614571563716939632218004630683894044756268558860861471746304114444342773546608204484935043717326036225019483969890385945969421517857269732187861474985689777243157358325982055325988313456433673381230232865956479797673923218779870567406545399957050232207677984930913211216764261094322158544248330556002749045401781907481140742635988960182103776143940399066396623564868356209694973684485503927605374574662156284872288944225978102458399219130066182004025159595158268568992048314335777426755679818571401117531888099403378323902386153038142669261048915529011278979558854990379931157801435585875812446279260680551062736453912070313483180752408318159394464037732924605606235322599698158982543246904322144711551640712722575392768945831946050065626518059404333555766996576850486137579148657436623996870732480457658846002842578974328074371847628879800217347728254596976874541927162457061684049273249025910542972453264951493995673566368048396997873146404354929541128789848790881916720864735563879828575272083661095358708620602062913106354737271138790061071460233544362689733813663226160814296134091263211983398586627765118455677572766397396029296111896707606766008727138895312822859878204029452821895103146174834320593179843125810640876002177752820684694961195385928134446148982946355043284878341312937424644091230416611856436365833828927718628754858915739611705775162703561505043908416456653894043709443886795062634856724531078781196643673255522327907584264392056852537704532496780402180968512083485165370417014951513035942089785309569950291171485041855550684129985475056939807578273399965424253551675009440273451833587201999830365020109905770058673189038974030202418731738365178629019711509380037439007826977725713504896371184766952993929650522061950589158715557901890004742170233893306770335468249852816515934232170394721715517473397276435442285085438044379213765387805785139143142150060445189514413733826803088095424626134192420506917997804913279799037496010069516534369764740725068482602753414105016939713252769243226789548483380407363449231983432282163089454059489611709358746306221885276815061748848233753369410081943193857325829430609105308990001470148123357687674481754678598928102225552273658397477557400301469821589208779668086928215936241158499334412431933848226374608941475441823716482822684202441718013584198983147788184672240094496253294128495808225026139976853363426560366197064220653310275330933289669015504854597426962401764543896596488291807273429524115191132774005904435919733884435284991557279859154472400629974426702141762009598694969171092525843293520512177941662079509104691114922493830785913987802197692327146648563901768878200345499658894542768949755376699373464186814525549692775834905486950099283063581379123885906605494003715954918328804362203919538615998744741443061597091304366300912722966172872112124545398362172173862788749556033718628713319370868416776116525944310827488364042698918009124201972576250211739844610483304110497971591315066953574100747823829550486439920112963998146332201921397894031717738358598136181615176988587129575775991330048075546901394762568778852889479609833615384752206137405224792370756008200732698578172514013391770171177495288572403713311043175202609300843923070324067641771252245478554217245965068188341799862948209831273330313937248106328406413790629092861777337409067349313695936457902173641826262329794956574131050040498272239603435123683344086153421964999427631900572951406525274122426293326593144147845569128008470088438337092244021954547908805786358790236588510152053367326801703558405683061305445362955035947858460412220288692417147646837314124795230126115984831641567778525345660582987000765770266922607304759983195509911325582243984791428989129350297404777998597033637851980928079673226813111180469551653348285763942624878731786783358480943945103606628468536810386478835489368850566430127211937093312928896875173153242175847608441608820477189537649309084868944769341165033710156065956506155745699834599539485921062996001549672480369557518369904883164275779692146632542830267554513337944501269324443883024661123863443513677384041841684974148805333508740885163740916966383977120106638855708702487737891446739857688453880109984992533162804113828338772001824246437689353585463129682772096049969650135469100891824283013319201703263342743174237243833329191093341541964349825365356515984631051998749597463365881783355789190444519643140832614312855765408976761004113406251791526245384549340864748806692895047490060245972147241887586889903334416315745418367687639390110405815276340121783795764525004542411319975395449449920648334280452189363362204950961880544560357232233251466682315570156707740084268587424890183666863505419325029175800576532580555390325964820657683973046397678954140434755614941427690531276547944943705111065363105059361398788097213124349887542123362519110278189941160380214094238128715722116367005566903795371894911131965167910959514601283345599078216957890122966355075158105233968145170492476066632159736200470392398991467206300100194972091157757001219489195356

/-- Precomputed stage literal: the state after `init_by_array`'s second
mixing loop for the same seed. -/
def mtL3 : Nat := 73276701447225229188490337666830859316574199768997711451599978985866113594546446737125439180799419246839468950374207509701835334406076929856420574141192526941896963431932184521436353143144976326762895596773259342326230623737521354435842430582650259786699165336870087412963268318479849099224151686378532789972144106685267684634424515837960461865744686739993458521375963308468040852447110824596315627284546347909373116998797116040286825162416392630463687867555606580825644996756072351958496857662197888435898857843937141640502808759275587457040411405184334236904992740553363325495668135861739513633419833217775499489432098046403391561150455913739531630786740284206981478627606087292310380873084488373616035707193483870717468007021061530312774463295954802263882497346561584352484544410337356091997144475583684348129951229437695591639294857636893807466676131369691034658644958768579562384581281178507264008238522694558775552741343934298520935304073391244094716084959442443391511116149793551802899739472115116462680024922172259784783974239564780871976741314574301286962516212337916479655353760966406536666919222651269525360070713364942136367383382074065325426061747424679372417306984524731320976641435574800260376154101770509705365193174573720966629665076611113188266242060002428845654668603488913981774914716238076505284046015656577255075515986044813457991802699465600051363740959555767122109420620563721418524953257338883281812692567117213047831158256170270506862955551344835836498491550477084936922122978612842847450708771072294939254831484133193969778935322867710870067906096560122143283041320668484105083254036776097864290943783412521266975751669743162948455033805895823042389194098622628418571739759343998912230134044467498534153554075679150203255121632534955136036740301787562474056108346490603561258226750912089440988317559392286806327937973035986404151813077044934347213132159597133044852993796176648656614932801254641722298147227472731908985762750759741918567707160330729534015567648238211331180027942410375769752135368841872298693386315495383754495434277751743140127720912152272114034598240330615991717199808336577617426681166462084396159594977376861503372963372857738929846192902918751210880439255558561000090054761078273944969108437078165726749908479197839151859392113894989311109920032700985138493747636576840175430376869935121338372993211621609779246647510200264949072338466712064041457291858430099407771780437821655051356338878292846897548867796085868232680184097107073725528986982840379812738958162203704235984083616176462143838560593559228294752089275467354776578740264946859802565785652333628882764324936626120326181110151357379839969083770860918563851835502874891086016032371817136799125583925421523856018189790131014174671026074814488759287309536911758365954236238461514621630378790882180514522876104379497851821150240742290123032508337966661776983250028261818989520575457818643679020037702382677113737593576379379479174333671469867970787094833256442150930766038584699439914032589766494150382734220722196171537915723642345873909513671043265270276567751442919650822428753448177675923753272298495253207690406350179068087701365442355525348489712213567189911858768145699076081171490276579703583065996951834307844658120784912768503446224208619939333881498093567218339741342469979049648385073243085762517827366059735054165008328882847984562552605300917272401198826821639030350230145759596979559801674150496323070712497253879973645925978486931773512116205150972852897858933464776673322896069063408623506175614452365490405811970125554359650667981898968995665281458530342658804950239584474073047046675696424089216974210463652479423128410423784411976138839864440810773965976894796468914516166883451143421249151405007520513870645367262616894916996360179716673861118146777758158964538458975684131997360750670086539467962690992158050719422055564794257304086909477398031087819039810013177880225419419626229974871641920432413254707017575892127660678190981597938838687583352156247956123344828961706389766397477592118653925620364537284622566867472685678874301182142886119379409619828024316994626331899334162018230740670408906098334996690474135721175858397131063574280126679097353749226267516018036382041212600479169586286658423151015313136570712587382526377490434188431935991927318045099352875629459542159846386371171101098288019333722883679960956788909293098368549519311744559094847752182194727185094788276806394895441205719742118780301179829752317864461490860427049690557936643489246847912678042010249124913820312032116091166271534454238403163081464722792138245677242960879316880321687708456614013261895205117566456507870084510200763426308847512023747677853730331897677841656517207934552776159269847691794974983115155925602662180179785096443524130363099376799070082150793945256298503117535842812901026521427930129598922259570051296707023637971418456630661603447999576530046676044464700776548741188124524228048996163799282919525094216660402848490797137731808711888404327594512089379295393781051649408174653350264115530899414809589643150780739152472331224678196556512476635164451258547972381960003950767297467331352821114602944186335228379693202873364594131905246581585116870054681514380823470666198397481961015048250549894537170342668829546863167351247292766193912587590172651974813755141575238730017041630504205036251252115073200030825747204053049467663154825792229825994679440997828065014481150403072391343824077038670850970281933206168767150792377675614157336364431692704150885349921103451492174564966678127947883847577750648351917343931370580304640137050768529474825957979246481377083423986083051081133449272364543435832758724897704716372172381304062640086816195052564545728142593335888996148651460174414992081658884280013773552069748199383070700141675736453041434395883278005157506905724395928869563461887527800477258019608060035098596382357391191843573454088102695102817872327880253000602634007945239842710548321205426627416117016059959178317741013503398162372591676441915968333366843452143047640382924730

/-- Precomputed stage literal: the state after the first block twist of the
generator seeded with 1383577440. -/
def mtL5 : Nat := 11438919040887752668418898602116128415579245676130302659315994736080138364552692783045504608737745919425871837705937257059001168794191623709326912261009211757691162640591160626970134512180906167485587946174487800005293476857996791247469268831151112390151122326394001017822817302484290946012244793041928312635909305245488010724633668940970855453445792158948922204868314169844472754381356112251237645152070098803589724271169481278388570679079541917628602041001056580695944872116473716163706521684973021216968997505453901259133267437863694562286056044395904542245289004940093751785318453971853488124528797263321534596003668932124348040915485449115425085195531817680309077178544437762954055357510784280197430818895618176944022206681208831175850769810871309154269076565035879012468188586233425993666252694773067377516079724086783655349938480348326062715573430942635875787227795770722357572885296851010818324837141969673706324173582412353540362961829133955542226899509328518562895982994004638991295680396227522768746697598602004146912406766807119384880770686987515660549711636858096852475746446544949534431186109555105705968235395155285494806628491506128039396072028169386979636532826362426534574047298159019025384506223284513877506074716458960837424344951980732372723104307661081381968144324103802932855029009590577858991576745850537393877117206274661115840013533224448302783762924749150967642277385516030705344807592531455674973654964336382628192484372295208590475214181202127490899507401154644897227511140618217834687578983037482671101566991275449518924450043825040982741836141177449659513639489677660600714313945745340296266258174667739215825786614699472486650075432453039243957268923045504441609376589890402385771490531852133091846564994182159475790671416344890539680620198003882923796677920322929294362704157872038059788075634473525328873904742748485673309185693894166264803396848688724324765773987586488107675689900819611422800211859200681780579687875876324492948637793286572904602751911936142667040926166487954120802391634409368809363776716328083697521476299680097134893478999798362977661943677817557124770664137977078550147618705872884512078477391758300644343334283898166604265758513186452505210763075493003295713496089399590127542430547691512336547386836923748393320169735943917451611477004472485124860403025318481233736889108627382366866501509598142101111599726861179215707218314574422159039938051235231590273935863238929833338912669648684675785553729642100605078165088281701732593563076554098533384621407706917514061502399025251569399550727843485049808251096075540241010177688165228662440617393860214745370358704672586433318295732603437915298486768174343908313540237563679527723652575992719246988295651153095530668770059087525307745481870879693023750837613944966533068684443556596595276501401338576464774106189545703142125626739353083659955408646361451042128756961181482399971690162680312097509413274723152236493483167839869566863302349402349659402900086024153002849943071475912126596343607119145210110714243505805855395431886551141303041508887858845990270751549812992984100951231511899519029346358037317388860314224111498940164473680542660170324879711398861728126045669068236055094760053698592491819904731332681152570999574078363553786205654264067757047848948712120020850366268948889443044778670841590502767411667972952076477178353243694082684474419301043560195527587323840309895908014020184721761193114598362075535812080508657195172088397406006206715596316085566092257015577206951021936132749508791991512403767892547997740116976306329674784391626874325421584536471050459326085999396889341167479644792538391680315119198886170366238025666239958363167504515806158113208439948958746814977700682531464276098116971329924101124377212959143582628019572901829851912472670383227325498108113128109353329458005022197826998767497479144437119724819867036138488136910940329650702376089739683384059654818901899151509585456271260668174403903408608682970733266278195005445937722764696338870981515239972655960039392456180815075774343004111798112880116926866810323993378290173336382803659144107701349218389774985001519454697599618232661942046207323751976754934042721551119692897353587794546565239660227901664191712546710681527522392190155384298308998693049219666386659396870164656323992948705435717753917493805793255515307555848649935172799753614665754530023230500174569810090775692201645438615279603586390333162875926148996821482035934724020883339336625949560456338805148586316641808562873316096272378057308145273455413363913356161555492709707011094754528317019984347992233955902553887335663939630366542589148885552070975554712756085162014204395588624273240904040347830282667545395874797761742348689254287159494878164229047705738662623557320103921440069965657615888855407415038205744623630221000671913784355422732021459847269928661449747968423511088002982068651012688945659703486687740090708604953505568381093588486708141997500521565384362966340115751607237801076952524363848012558882931653732045480045400010248479786521563707975413042036458084211149619056096244832089584552766909212850920490543527744871720209139979867879581505523250913220187166110548385525317482336611338397868781974490743693208124725603992136697824158592755319914675030946982302261935122662146334798742473196682412945612620969659230568134482557930511546546417935763310228018780351393039411194913355054263368335358934735297651274723761689963588457685945679853332730193814550153435575007461501928266792139813401158441025542784413820118490762594316893779137689750232650986388207003480591929566800005903252939945489549769215276859884552698361755219647042329949905106842609132699676904631510297452433567679405090500109576534151623359945769525831572738166604670411920924419319332972879399976148765097284093566370819143656526096590471433388895523428480760935509008435809807793469853374982915080825953914368536284761113972987368580075280761761435275538563137170956062003618543461395973811132610883412899555176722618922081956446807804846463019489623341773797287

/-- Precomputed stage literal: `init_by_array` first loop, halfway (312 of
624 iterations) for the seed 1383577440. -/
def mtA1 : Nat := 62685089405509111925910797243914719854890513935494713084094713797279779630627496305943786046941309007281293105221577504421353501605599255248785149356818580886163074212016138319710181437623915839386196989339984175865611290932895638485827512283879634622589907034847096838980553398268338905605705315464924834076955485269257682765843392777664062904318116756644819538761883164862381873685805923051342196114892111881287659915424456096361326051748180740843339721465950121631833352165428366344241754810081140762710579390137795215443629123183303201044796731629341661542390258966032612552126580439913324626563213547393121217728067632048719897064596438939163041106934301355643192260261867872030533878188557727018817797219012064641958276099544136480610826250078810896212505254064619595899307426216931651016613164877613570296351724055264357110051005104450572173606849938075379012356137114572525910752676385589168436483206759652170097284388598518122222819376116616668668677988651997615236221431416155794821321118852088948452164682783715959922435191327367306488124638818446090532334864386359317233873012285172875896330714873881780586230596002778688422250420590175698633544778262136505069053046737202152515000629854634631225453245996997340762744567896897683212149150732909707719966588817675821630380251456266588599804209831660991462715440400663143017564651072677052296295930367391822676512661642282350234567553218318066651318510488484545671729568971887621684270732981974442582657502555066960418690332945218280990034155505553171409775830458482159957769211244505225186771766058316021949327301666418107251589707938065072144733816368743637495699897181007119363672460040974223449086641663004605507793014252452324150238463715514559124307431648478948480649031081489229583165223570218974125422263886587593014744330199975749832650568652404661542746543584685860761547297457070273167102314576665676644281998277713093924236551494770138725647883566971887853912300960949802636372591951717316415323846182747445131420005722224687602711525724505110953736568981699982016588947035894059736087136235396798804019434387781559696138411966704777989194870090051835909943079457649936020314680876367897457337488804889342331824364904005266943816631681518612047693872607083945336048154993001716858914072302230374294986610531277637599664647525761147514008899238689946802093944865612982597431648203028809043429562401771290925843222821220221381984318518256971016750121270624021542153515130386081256853244444367484914891752438843250797295149886721543902585582757118492217204960123203770309672216674331373413106027454841661967870247822106376003696537006476355273043676224973894002060133928765135363584693312631060562155459381152426642778209514491263275588735458188352331628933634618912177576995916817414488324819680108333628484452298807271017999262374749573133359090629722111402666396222385680310709557844049479865847370371052888681758484468279513921172987571336140289500145715018352119752770038578015899178947425013401300127437407370742417936980800835230109207594541626404459661688588621789707895481497828665596835528400396359902827953273529806796295932195696217479851608232148287001847754538352996480477222539480640881608932203978439807047418784491688492474852948484742304314894848837218305373955892157047973917584094614749636319318174491950458105163039006660101750588794904926426191018951356448640071199024371359403098666179978532637020312117560552528075181457314766567225765228065050865871151318693844354017274127709236522055474718124735231466375578981368565102259874228565318211100312759071416398593897364280614312575397002654917803548101950815776355487491641591050980428911869598078169948304118994587658384964274001239908065705471782116304690072105222880030872153028091261007291061073754774504162428941199618530845415898575764657571430570341745391552068589801614534057428607576939481962223574526240604873864982250575862372461492207403753197960477280141296501144958990407860485539007248165354403671168025160025207401563908004002910156955976242384546962123866678270290132094410690144613229106837112944195164401036391893670681736573058139557895958493511135554453247042571698858710418546829637676654810246737715087986926317354638727010668027628381949356158988268253031763166494039898463843577674911748418395164451179907525497939522606979144660798775544762165587431431889337988805496532087890759606475940879447992668353329023754332107245911235686422923239712076094469681666146799951606562537551500443038554357299072378178130918027495498889673535050018602670766788166006834410768274604358880819379045907791030770622469332651740156230227043903626206709064302589112668976852140963137145145936133777319690414669122710413524543904023152271835617134623315565105566529865542509312218965042241286099292254781394515984208672037686618119685696028662822629884638994625191711645500563883356262374688788282798673702248040176400377108064098015705106473821085963495631050940663855080100210390008286959984705870172806735066548705945186681918084413822026547870909347434372472677230499124761548135817483638107807569422978997940296076013847369707916205901414683708254192490405082070683104429961132742331023643155632615985081397495615399025332525858996363995318247153799635630777982695773988001077399274527541316417574430374098219024201282642966336137829505928923988915525493408897478676796564318236590770762320985658040708960525359921895602619052834582552101268795327970016354274448007411189175694202558682605211406734448352570848799739580138996959124508550024959113056446460078085223269073343358225081272322558276517441822522055917602359997753486484937690788234587699528186069795315162957780391638773024935022750856348324973800294121472648015157016033891183270439003812534038052741789456417275022261399517122048600088371269447680772822820715717255976049513290272653059935361962648474490179611539130127896286535073366240323724360890598419709181400021641120508371841853435645773159853457967649692081621978642245435098307720145267037093849245349619493133917261836927761541686351530

/-- Precomputed stage literal: `init_by_array` second loop, halfway (312 of
623 iterations) for the same seed. -/
def mtB1 : Nat := 7744760246829771585363380115096172746462910754279252975558409097043452246490972211123162191707151986613532510649165806867975188278944503616913591836386152392893372114959199757206976803046207358306984999380545600798101302619888109794212906813256194711383656463931724646114311896633629890546498722518387116014597606633547016906276041607938440899380943930148044081792047648550510024881605416895879678499838746287754593115155660914991795298127123753340691901653577891379927883520507029374631256198931910505387774755500729984604577793149928389401646466437680001670191259273990537684499444171507926934833339294786060339484442339870154609434009899819990993788411615943704063998963163771437402970564912279216807999195980089541925929646225218596246685083932408574988382067352736478927131875145916208183431604480036232184033828796416484037487999257732581545257567422571623169640594566311869956139911623598490039055434470351447179387539441480287161438245155320311954602021785064664309540307614571563716939632218004630683894044756268558860861471746304114444342773546608204484935043717326036225019483969890385945969421517857269732187861474985689777243157358325982055325988313456433673381230232865956479797673923218779870567406545399957050232207677984930913211216764261094322158544248330556002749045401781907481140742635988960182103776143940399066396623564868356209694973684485503927605374574662156284872288944225978102458399219130066182004025159595158268568992048314335777426755679818571401117531888099403378323902386153038142669261048915529011278979558854990379931157801435585875812446279260680551062736453912070313483180752408318159394464037732924605606235322599698158982543246904322144711551640712722575392768945831946050065626518059404333555766996576850486137579148657436623996870732480457658846002842578974328074371847628879800217347728254596976874541927162457061684049273249025910542972453264951493995673566368048396997873146404354929541128789848790881916720864735563879828575272083661095358708620602062913106354737271138790061071460233544362689733813663226160814296134091263211983398586627765118455677572766397396029296111896707606766008727138895312822859878204029452821895103146174834320593179843125810640876002177752820684694961195385928134446148982946355043284878341312937424644091230416611856436365833828927718628754858915739611705775162703561505043908416456653894043709443886795062634856724531078781196643673255522327907584264392056852537704532496780402180968512083485165370417014951513035942089785309569950291171485041855550684129985475056939807578273399965424253551675009440273451833587201999830365020109905770058673189038974030202418731738365178629019711509380037439007826977725713504896371184766952993929650522061950589158715557901890004742170233893306770335468249852816515934232170394721715517473397276435442285085438044379213765387805785139143142150060445189514413733826803088095424626134192420506917997804913279799037496010069516534369764740725068482602753414105016939713252769242986156747105356189382706058824799913164460771625092822503975613685432634543282790231631237427729886373757011954425527597070606881781568413992428988272369562319441267761372174391241458332315157264592835638586113017051265768363457784439268516065194422918344076760053578150903073875814709664402804547052407170956397815576481167941683777842447244317340270021775940470498073365925641672664685327133887244982939540124470065113295325820022359204887957321288075387881317739144288393297399839707631960071399450721221656148454893466060323381589791474398081917091111232515186738117988436208260690301545016825998568412374145332559658331353623803631208812720750602369513444882535304078989900148769363955234504090595314751916725283619300263185569564273946194937829176763103640545687873227499560981950153940830550268674271032009498540496867698553827121344412009911150523432060755989625136357124251630715738069313839340420499039154485889009748906189030160868354904830142777762673384679756402025039755927732887980582960894306442601842021613081038879444093678422745902292216677109600178640055217388511746708061531633860097793129836594078417212195061055777341280932327543667553855105045028345074828731710717595298765174258199253398116789381377146443806511793031292804388529885147338282262558598306632838907233791626675303963766860120110853762880831183853941279016705649637416597561706321388611724782980798940589179756263009526299530635183685545468049817453716520913059596238428844312708893846940205186404915494573621275520465673682064644317473163004850741415464784059563001179515094367074011359207190646833561372364135314400507129108277018095094636302919498017721515193747633345600959278765581699144919379820677297931040851480207803963163689581704364622666015042574098391544038585629945638628688151629502527943303857928265716292986863451432001161517359096848046651360557448632098112053026015199629786102776234302477440000085073700434709484006777631025662087331955033547221657610317313714297404817080615713343491341467832962355579371880295610421664893114321334412218064198190914896698666989305833700568146573132277086291153824270729638981739375250394761383503784117174163749261132464428492360750963877259583912232140697909393038053428578132265527202683393963307680713890873475710454320867766743599156196347453552750473822362706715325307165899760563103876513809433504930755259999545370097043521846596569645288320043910170799006260468664148305697847480257831800150147349449942659835884184910685644924023414722356797594295175952888081739592511901823540340366135302710754269667815159750960270541364516578614171912475779574885602374722685419248817474030823366806696939223910858383491780657094823080815802937669294712618541326274196723287503191747215511027289749409956863875132306757807972601154071805826241074449743932968363470977014440741770007548675409449225381651642692724912049569913761230573174780891391723154134603615994123631616543635203591395065241049992942560766726870996904583623263316776442734530691257517628931663512835949488841758664028

/-- Precomputed stage literal: the first block twist, halfway (312 of 624
updates), for the same seed. -/
def mtG1 : Nat := 73276701447225229188490337666830859316574199768997711451599978985866113594546446737125439180799419246839468950374207509701835334406076929856420574141192526941896963431932184521436353143144976326762895596773259342326230623737521354435842430582650259786699165336870087412963268318479849099224151686378532789972144106685267684634424515837960461865744686739993458521375963308468040852447110824596315627284546347909373116998797116040286825162416392630463687867555606580825644996756072351958496857662197888435898857843937141640502808759275587457040411405184334236904992740553363325495668135861739513633419833217775499489432098046403391561150455913739531630786740284206981478627606087292310380873084488373616035707193483870717468007021061530312774463295954802263882497346561584352484544410337356091997144475583684348129951229437695591639294857636893807466676131369691034658644958768579562384581281178507264008238522694558775552741343934298520935304073391244094716084959442443391511116149793551802899739472115116462680024922172259784783974239564780871976741314574301286962516212337916479655353760966406536666919222651269525360070713364942136367383382074065325426061747424679372417306984524731320976641435574800260376154101770509705365193174573720966629665076611113188266242060002428845654668603488913981774914716238076505284046015656577255075515986044813457991802699465600051363740959555767122109420620563721418524953257338883281812692567117213047831158256170270506862955551344835836498491550477084936922122978612842847450708771072294939254831484133193969778935322867710870067906096560122143283041320668484105083254036776097864290943783412521266975751669743162948455033805895823042389194098622628418571739759343998912230134044467498534153554075679150203255121632534955136036740301787562474056108346490603561258226750912089440988317559392286806327937973035986404151813077044934347213132159597133044852993796176648656614932801254641722298147227472731908985762750759741918567707160330729534015567648238211331180027942410375769752135368841872298693386315495383754495434277751743140127720912152272114034598240330615991717199808336577617426681166462084396159594977376861503372963372857738929846192902918751210880439255558561000090054761078273944969108437078165726749908479197839151859392113894989311109920032700985138493747636576840175430376869935121338372993211621609779246647510200264949072338466712064041457291858430099407771780437821655051356338878292846897548867796085868232680184097107073725528986982840379812738958162203704235984083616176462143838560593559228294752089275467354776578740264946859802565785652333628882764324936626120326181110151357379839969083770860918563851835502874891086016032371817136799125583925421523856018189790131014174671026074814488759287309536911758365954236238461514621630378790882180514522876104379497851821150240742290123032508337966661776983250028261818989520575457818643679020037702382677113737593576379379479174333671469867970787094833256442150930766038584699439914032589766494150441499424039283119661518065222383827712358688187687148326490009201697427998047969493970770883104482977548998812220822768122663750205754947015114225062380627078419296278547448296520239505241150987456386382677330057221606954760055611312273065880719717168270788327173614964342693695584676777369290839714106017053490119095274213338184629413192215267117250435199675397690699641886920021645331171157893216772771647751618353844417292986995948786194379436943870031393538326302883219702449595659540506702882304658612978533210813941585038293076761426637103989489290349075717070359243295101123275201600588098913764933184774524338662902969517858886010329353270780475695660619177017889268219777253595851372240646066055886286829857744297779295349789315736025715508690693653398510434177941146291749932882236379545299124995270817936226828165402791429225826709565449160081643309502896230789544757105653674656613748152220324805673483111820984995825767601968951157327667187356476761509453009892935329892930696080007947518104288548544537716695108483927861465940823685631874799719875240736865575958689150146338199376784966084966484183213857831725351230739938580876258574247800193696204052412065960376354865515792148864690154003813363479996950656545253938148147575599625307624909731408536286126175352619467648977723938926991067831564855763030194124285187586177430710308781818651975754119458203011877715646316989851923486109159880895406584616917550933692848944535085712146199664654231056747725330360929694031184569555881580067916431633059396481874148944680368789120727278253355488036936150951798980938828344457767899534051050174287595741234876688880987373336769626966553371736848974989044823720755672791816195113462730903597347877574756838206172481539588011071790865325810743096291464885783611645723344168214009531195212911914685671933433579212616326819980525835439753004243652953711318180172895397508068359217301254244395832594668185641661297332576774332511857686486279111589234340122974793256731150791229013883243077417588140511419894666618749081793057570992269945413635076540988287419985428730399147044926753004354542177072091275680686396067619290038883489867372070651477255950792569856979370552066938370982644927072483657534445008371540185610178822851150784803750009600254439697278565164816537647958205400107398221375693923421377420551565579867423320381952706112820058296867977648407861365510789768640785922723492476061070909862077282949809732629272066532396133806158125766483583514603692439845639675636840166178052812944941015754022919573475963694399276088299850886139963008943641099642109557123575827947828187649085960678129263654947232760189617461858289216598778183404097102179120712302431258481100167388230078970908871589343690712459228804784258304314188314477806076251209591966476665832576159597484544103360516509938177549884918198924658789218403902890538465722030758594393752566368399081508429058328983717258158373550072304687423918354606357194895810807638568232452945143400627125594685625984972665562662030997340993447

/-- Modelled from the spec's words ("deterministic index =
ordinal-day-of-year mod unconsumed-count"): the ordinal day of the year of
a Gregorian date. -/
def isLeap (y : Nat) : Bool := (y % 4 = 0 && y % 100 ≠ 0) || y % 400 = 0

/-- Days in a month of the Gregorian calendar. -/
def daysInMonth (y m : Nat) : Nat :=
  if m = 2 then (if isLeap y then 29 else 28)
  else if m = 4 ∨ m = 6 ∨ m = 9 ∨ m = 11 then 30 else 31

/-- The ordinal day of the year (Jan 1 is day 1). -/
def dayOfYear (y m d : Nat) : Nat :=
  d + ((List.range (m - 1)).map (fun i => daysInMonth y (i + 1))).sum

/-! ## Helper lemmas -/

theorem pyDedupLoop_eq_append [DecidableEq α] (l : List α) :
    ∀ acc : List α,
      pyDedupLoop acc l = acc ++ keepFirsts (l.filter (fun x => ¬ x ∈ acc)) := by
  induction l with
  | nil => intro acc; simp [pyDedupLoop, keepFirsts]
  | cons n rest ih =>
    intro acc
    by_cases h : n ∈ acc
    · rw [pyDedupLoop, if_pos h, List.filter_cons]
      simp only [h, not_true_eq_false, decide_False, if_false]
      exact ih acc
    · rw [pyDedupLoop, if_neg h, List.filter_cons]
      simp only [h, not_false_eq_true, decide_True, if_true]
      rw [ih (acc ++ [n]), keepFirsts, List.filter_filter]
      simp only [List.append_assoc, List.singleton_append]
      congr 2
      refine congrArg keepFirsts (List.filter_congr ?_)
      intro x _
      by_cases h1 : x ∈ acc <;> by_cases h2 : x = n <;> simp [h1, h2]

theorem pyDedup_eq_keepFirsts [DecidableEq α] (l : List α) :
    pyDedup l = keepFirsts l := by
  rw [pyDedup, pyDedupLoop_eq_append]
  simp

theorem mem_keepFirsts [DecidableEq α] (l : List α) (a : α) :
    a ∈ keepFirsts l ↔ a ∈ l := by
  induction l using keepFirsts.induct with
  | case1 => simp [keepFirsts]
  | case2 b bs ih =>
    rw [keepFirsts]
    simp only [List.mem_cons, ih, List.mem_filter, decide_eq_true_eq]
    constructor
    · rintro (rfl | ⟨h, _⟩)
      · exact .inl rfl
      · exact .inr h
    · rintro (rfl | h)
      · exact .inl rfl
      · by_cases hab : a = b
        · exact .inl hab
        · exact .inr ⟨h, hab⟩

theorem nodup_keepFirsts [DecidableEq α] (l : List α) :
    (keepFirsts l).Nodup := by
  induction l using keepFirsts.induct with
  | case1 => simp [keepFirsts]
  | case2 b bs ih =>
    rw [keepFirsts]
    refine List.nodup_cons.mpr ⟨?_, ih⟩
    intro hmem
    rw [mem_keepFirsts] at hmem
    simp at hmem

theorem indexOf_lt_of_filter [DecidableEq α] {p : α → Bool} :
    ∀ (l : List α) (x y : α), x ∈ l.filter p → y ∈ l.filter p →
      (l.filter p).indexOf x < (l.filter p).indexOf y →
      l.indexOf x < l.indexOf y := by
  intro l
  induction l with
  | nil => intro x y hx _ _; simp at hx
  | cons a as ih =>
    intro x y hx hy hlt
    rw [List.filter_cons] at hx hy hlt
    by_cases hpa : p a
    · simp only [hpa, if_true] at hx hy hlt
      by_cases hxa : x = a
      · subst hxa
        rw [List.indexOf_cons_self]
        have hyx : y ≠ x := by
          intro hyx
          subst hyx
          exact Nat.lt_irrefl _ hlt
        rw [List.indexOf_cons_ne _ (Ne.symm hyx)]
        exact Nat.succ_pos _
      · have hya : y ≠ a := by
          intro hya
          subst hya
          rw [List.indexOf_cons_self] at hlt
          exact Nat.not_lt_zero _ hlt
        rw [List.indexOf_cons_ne _ (Ne.symm hxa)] at hlt
        rw [List.indexOf_cons_ne _ (Ne.symm hya)] at hlt
        rw [List.indexOf_cons_ne _ (Ne.symm hxa)]
        rw [List.indexOf_cons_ne _ (Ne.symm hya)]
        have hx' : x ∈ as.filter p := by
          rcases List.mem_cons.mp hx with h | h
          · exact absurd h hxa
          · exact h
        have hy' : y ∈ as.filter p := by
          rcases List.mem_cons.mp hy with h | h
          · exact absurd h hya
          · exact h
        exact Nat.succ_lt_succ (ih x y hx' hy' (Nat.lt_of_succ_lt_succ hlt))
    · simp only [hpa, if_false] at hx hy hlt
      have hxa : x ≠ a := by
        intro h
        subst h
        exact hpa ((List.mem_filter.mp hx).2)
      have hya : y ≠ a := by
        intro h
        subst h
        exact hpa ((List.mem_filter.mp hy).2)
      rw [List.indexOf_cons_ne _ (Ne.symm hxa), List.indexOf_cons_ne _ (Ne.symm hya)]
      exact Nat.succ_lt_succ (ih x y hx hy hlt)

theorem pairwise_indexOf_keepFirsts [DecidableEq α] (l : List α) :
    (keepFirsts l).Pairwise (fun a b => l.indexOf a < l.indexOf b) := by
  induction l using keepFirsts.induct with
  | case1 => simp [keepFirsts]
  | case2 a as ih =>
    rw [keepFirsts]
    refine List.pairwise_cons.mpr ⟨?_, ?_⟩
    · intro b hb
      rw [mem_keepFirsts] at hb
      have hb' := List.mem_filter.mp hb
      have hba : b ≠ a := by simpa using hb'.2
      rw [List.indexOf_cons_self, List.indexOf_cons_ne _ (Ne.symm hba)]
      exact Nat.succ_pos _
    · refine ih.imp_of_mem ?_
      intro x y hx hy hlt
      rw [mem_keepFirsts] at hx hy
      have hxa : x ≠ a := by simpa using (List.mem_filter.mp hx).2
      have hya : y ≠ a := by simpa using (List.mem_filter.mp hy).2
      rw [List.indexOf_cons_ne _ (Ne.symm hxa), List.indexOf_cons_ne _ (Ne.symm hya)]
      exact Nat.succ_lt_succ (indexOf_lt_of_filter as x y hx hy hlt)

theorem head?_dropWhile_not (p : α → Bool) (l : List α) :
    ∀ c, (l.dropWhile p).head? = some c → p c = false := by
  induction l with
  | nil => intro c hc; simp [List.dropWhile] at hc
  | cons a as ih =>
    intro c hc
    rw [List.dropWhile_cons] at hc
    by_cases hpa : p a
    · exact ih c (by simpa [hpa] using hc)
    · rw [if_neg hpa] at hc
      simp only [List.head?_cons, Option.some_inj] at hc
      subst hc
      simpa using hpa

theorem dropWhile_eq_self_of (p : α → Bool) (l : List α)
    (h : ∀ c, l.head? = some c → p c = false) : l.dropWhile p = l := by
  cases l with
  | nil => rfl
  | cons a as =>
    rw [List.dropWhile_cons]
    simp [h a rfl]

theorem dropTrailWs_eq_self {l : List Char}
    (h : ∀ c, l.getLast? = some c → isWs c = false) : dropTrailWs l = l := by
  unfold dropTrailWs
  rw [dropWhile_eq_self_of isWs l.reverse, List.reverse_reverse]
  intro c hc
  rw [List.head?_reverse] at hc
  exact h c hc

theorem pyStrip_eq_self {l : List Char}
    (h1 : ∀ c, l.head? = some c → isWs c = false)
    (h2 : ∀ c, l.getLast? = some c → isWs c = false) : pyStrip l = l := by
  unfold pyStrip
  rw [dropWhile_eq_self_of isWs l h1, dropTrailWs_eq_self h2]

theorem getLast_pyStrip (s : List Char) :
    ∀ c, (pyStrip s).getLast? = some c → isWs c = false := by
  intro c hc
  unfold pyStrip dropTrailWs at hc
  rw [List.getLast?_reverse] at hc
  exact head?_dropWhile_not _ _ c hc

theorem head_pyStrip (s : List Char) :
    ∀ c, (pyStrip s).head? = some c → isWs c = false := by
  intro c hc
  unfold pyStrip dropTrailWs at hc
  rw [List.head?_reverse] at hc
  obtain ⟨pre, hpre⟩ := List.dropWhile_suffix (l := (s.dropWhile isWs).reverse) isWs
  have hv : (s.dropWhile isWs).reverse.dropWhile isWs ≠ [] := by
    intro h0
    rw [h0] at hc
    simp at hc
  rw [show ((s.dropWhile isWs).reverse.dropWhile isWs).getLast? =
      (pre ++ (s.dropWhile isWs).reverse.dropWhile isWs).getLast? from
      (List.getLast?_append_of_ne_nil pre hv).symm, hpre,
    List.getLast?_reverse] at hc
  exact head?_dropWhile_not _ _ c hc

theorem pyStrip_idem (s : List Char) : pyStrip (pyStrip s) = pyStrip s :=
  pyStrip_eq_self (head_pyStrip s) (getLast_pyStrip s)

theorem mem_of_mem_pyStrip {c : Char} {l : List Char} (h : c ∈ pyStrip l) :
    c ∈ l := by
  unfold pyStrip dropTrailWs at h
  rw [List.mem_reverse] at h
  have h2 := (List.dropWhile_sublist (l := (l.dropWhile isWs).reverse) isWs).subset h
  rw [List.mem_reverse] at h2
  exact (List.dropWhile_sublist isWs).subset h2

theorem pyStrip_cons_ws {c : Char} (hws : isWs c = true) (B : List Char) :
    pyStrip (c :: B) = pyStrip B := by
  unfold pyStrip
  rw [List.dropWhile_cons, if_pos hws]

theorem pyStrip_eq_self_of_no_ws {l : List Char}
    (h : ∀ c ∈ l, isWs c = false) : pyStrip l = l := by
  refine pyStrip_eq_self ?_ ?_
  · intro c hc
    cases l with
    | nil => simp at hc
    | cons a as =>
      have hac : a = c := by simpa using hc
      exact hac ▸ h a (by simp)
  · intro c hc
    exact h c (List.mem_of_mem_getLast? hc)

theorem takeWhile_append_cons {p : α → Bool} {A : List α} {c : α} (t : List α)
    (hA : ∀ a ∈ A, p a = true) (hc : p c = false) :
    (A ++ c :: t).takeWhile p = A ∧ (A ++ c :: t).dropWhile p = c :: t := by
  induction A with
  | nil => simp [List.takeWhile_cons, List.dropWhile_cons, hc]
  | cons a as ih =>
    have hpa := hA a (by simp)
    have ih2 := ih (fun x hx => hA x (by simp [hx]))
    simp only [List.cons_append, List.takeWhile_cons, List.dropWhile_cons,
      hpa, if_true]
    exact ⟨by rw [ih2.1], by rw [ih2.2]⟩

theorem head_not_ws_of_strip_fix {A : List Char} (hA : pyStrip A = A) :
    ∀ c, A.head? = some c → isWs c = false := by
  intro c hc
  exact head_pyStrip A c (by rw [hA]; exact hc)

theorem getLast_not_ws_of_strip_fix {A : List Char} (hA : pyStrip A = A) :
    ∀ c, A.getLast? = some c → isWs c = false := by
  intro c hc
  exact getLast_pyStrip A c (by rw [hA]; exact hc)

theorem head_cond_append {A : List Char}
    (hA : ∀ d, A.head? = some d → isWs d = false)
    {c : Char} (hc : isWs c = false) (t : List Char) :
    ∀ d, (A ++ c :: t).head? = some d → isWs d = false := by
  intro d hd
  cases A with
  | nil =>
    simp only [List.nil_append, List.head?_cons, Option.some_inj] at hd
    exact hd ▸ hc
  | cons a as =>
    simp only [List.cons_append, List.head?_cons, Option.some_inj] at hd
    exact hd ▸ hA a rfl

theorem dropTrailWs_comma_space (A : List Char) :
    dropTrailWs (A ++ [',', ' ']) = A ++ [','] := by
  unfold dropTrailWs
  rw [show (A ++ [',', ' ']).reverse = ' ' :: ',' :: A.reverse by simp]
  rw [List.dropWhile_cons, if_pos (by decide)]
  rw [List.dropWhile_cons, if_neg (by decide)]
  simp

theorem ensure_fixed_point_comma (A B : List Char) (hA : pyStrip A = A)
    (hB : pyStrip B = B) (hAc : ',' ∉ A) :
    ensure_last_first (A ++ ',' :: ' ' :: B) = A ++ ',' :: ' ' :: B := by
  have hApred : ∀ a ∈ A, (fun c => decide ¬ (c = ',')) a = true := by
    intro a ha
    simp only [decide_eq_true_eq]
    intro h
    exact hAc (h ▸ ha)
  cases B with
  | nil =>
    have hstrip : sanitize (A ++ ',' :: ' ' :: []) = A ++ [','] := by
      unfold sanitize pyStrip
      rw [dropWhile_eq_self_of isWs _
        (head_cond_append (head_not_ws_of_strip_fix hA) (by decide) _)]
      exact dropTrailWs_comma_space A
    have hsplit := takeWhile_append_cons (t := ([] : List Char))
      (c := ',') hApred (by decide)
    unfold ensure_last_first
    rw [hstrip]
    rw [if_neg (by simp), if_pos (by simp)]
    unfold splitCommaL splitCommaR
    rw [show A ++ [','] = A ++ ',' :: ([] : List Char) from rfl]
    rw [hsplit.1, hsplit.2]
    rw [hA]
    simp only [List.tail_cons]
    rw [show pyStrip ([] : List Char) = [] from rfl]
  | cons b bs =>
    have hstrip : sanitize (A ++ ',' :: ' ' :: b :: bs) = A ++ ',' :: ' ' :: b :: bs := by
      unfold sanitize
      refine pyStrip_eq_self
        (head_cond_append (head_not_ws_of_strip_fix hA) (by decide) _) ?_
      intro c hc
      rw [show A ++ ',' :: ' ' :: b :: bs = (A ++ [',', ' ']) ++ b :: bs by simp] at hc
      rw [List.getLast?_append_of_ne_nil _ (by simp)] at hc
      exact getLast_not_ws_of_strip_fix hB c hc
    have hsplit := takeWhile_append_cons (t := ' ' :: b :: bs)
      (c := ',') hApred (by decide)
    unfold ensure_last_first
    rw [hstrip]
    rw [if_neg (by simp), if_pos (by simp)]
    unfold splitCommaL splitCommaR
    rw [hsplit.1, hsplit.2]
    rw [hA]
    simp only [List.tail_cons]
    rw [pyStrip_cons_ws (by decide), hB]

theorem ensure_fixed_point_nocomma (n : List Char) (hn : pyStrip n = n)
    (hc : ',' ∉ n) (hlen : (pySplitWs n).length < 2) :
    ensure_last_first n = n := by
  unfold ensure_last_first sanitize
  rw [hn]
  by_cases he : n = []
  · simp [he]
  · rw [if_neg he, if_neg hc, if_neg (by omega)]

theorem pySplitWs_sound (l : List Char) :
    ∀ t ∈ pySplitWs l, t ≠ [] ∧ ∀ c ∈ t, isWs c = false ∧ c ∈ l := by
  induction l using pySplitWs.induct with
  | case1 => simp [pySplitWs]
  | case2 c cs hws ih =>
    rw [pySplitWs, if_pos hws]
    intro t ht
    obtain ⟨hne, hch⟩ := ih t ht
    exact ⟨hne, fun d hd => ⟨(hch d hd).1, by simp [(hch d hd).2]⟩⟩
  | case3 c cs hws ih =>
    rw [pySplitWs, if_neg hws]
    intro t ht
    rcases List.mem_cons.mp ht with rfl | ht2
    · refine ⟨by simp, ?_⟩
      intro d hd
      rcases List.mem_cons.mp hd with rfl | hd2
      · exact ⟨by simpa using hws, by simp⟩
      · have h1 := List.mem_takeWhile_imp hd2
        refine ⟨by simpa using h1, ?_⟩
        have h2 := (List.takeWhile_sublist (fun x => decide ¬ isWs x = true)).subset hd2
        simp [h2]
    · obtain ⟨hne, hch⟩ := ih t ht2
      refine ⟨hne, fun d hd => ⟨(hch d hd).1, ?_⟩⟩
      have h2 := (List.dropWhile_sublist (fun x => decide ¬ isWs x = true)).subset (hch d hd).2
      simp [h2]

theorem headD_mem {l : List α} (h : l ≠ []) (d : α) : l.headD d ∈ l := by
  cases l with
  | nil => exact absurd rfl h
  | cons a as => simp

theorem getLastD_mem {l : List α} (h : l ≠ []) (d : α) : l.getLastD d ∈ l := by
  cases l with
  | nil => exact absurd rfl h
  | cons a as =>
    rw [List.getLastD_eq_getLast?]
    apply List.mem_of_mem_getLast?
    rw [List.getLast?_eq_getLast (a :: as) (by simp)]
    simp

theorem sanitize_fix (x : List Char) : pyStrip (sanitize x) = sanitize x :=
  pyStrip_idem x

theorem ensure_eq_empty {x : List Char} (h : sanitize x = []) :
    ensure_last_first x = [] := by
  unfold ensure_last_first
  rw [h]
  simp

theorem ensure_eq_comma {x : List Char} (h1 : sanitize x ≠ [])
    (h2 : ',' ∈ sanitize x) :
    ensure_last_first x =
      pyStrip (splitCommaL (sanitize x)) ++ ',' :: ' ' ::
        pyStrip (splitCommaR (sanitize x)) := by
  unfold ensure_last_first
  rw [if_neg h1, if_pos h2]

theorem ensure_eq_tokens {x : List Char} (h1 : sanitize x ≠ [])
    (h2 : ',' ∉ sanitize x) (h3 : (pySplitWs (sanitize x)).length ≥ 2) :
    ensure_last_first x =
      (pySplitWs (sanitize x)).getLastD [] ++ ',' :: ' ' ::
        (pySplitWs (sanitize x)).headD [] := by
  unfold ensure_last_first
  rw [if_neg h1, if_neg h2, if_pos h3]

theorem ensure_eq_single {x : List Char} (h1 : sanitize x ≠ [])
    (h2 : ',' ∉ sanitize x) (h3 : ¬ (pySplitWs (sanitize x)).length ≥ 2) :
    ensure_last_first x = sanitize x := by
  unfold ensure_last_first
  rw [if_neg h1, if_neg h2, if_neg h3]

theorem pyDedup_head [DecidableEq α] (a : α) (l : List α) :
    (pyDedup (a :: l)).head? = some a := by
  rw [pyDedup_eq_keepFirsts, keepFirsts]
  simp

theorem nv_core_head (s last first : List Char) :
    (nv_core s last first).head? = some (last ++ ',' :: ' ' :: first) := by
  unfold nv_core
  cases hfm : findMid s with
  | none => exact pyDedup_head _ _
  | some p =>
    obtain ⟨f2, mi⟩ := p
    exact pyDedup_head _ _

theorem name_variants_eq_comma {x : List Char} (h : ',' ∈ pyStrip x) :
    name_variants x =
      nv_core (pyStrip x) (pyStrip (splitCommaL (pyStrip x)))
        (pyStrip (splitCommaR (pyStrip x))) := by
  unfold name_variants
  rw [if_pos h]

theorem name_variants_eq_tokens {x : List Char} (h1 : ',' ∉ pyStrip x)
    (h2 : (pySplitWs (pyStrip x)).length ≥ 2) :
    name_variants x =
      nv_core (pyStrip x) ((pySplitWs (pyStrip x)).getLastD [])
        ((pySplitWs (pyStrip x)).headD []) := by
  unfold name_variants
  rw [if_neg h1, if_pos h2]

theorem name_variants_eq_single {x : List Char} (h1 : ',' ∉ pyStrip x)
    (h2 : ¬ (pySplitWs (pyStrip x)).length ≥ 2) :
    name_variants x = [pyStrip x] := by
  unfold name_variants
  rw [if_neg h1, if_neg h2]


theorem ibaLoop1_add (key : List Nat) (b : Nat) :
    ∀ (a i j mt : Nat), ibaLoop1 key (b + a) i j mt =
      (fun q => ibaLoop1 key a q.2.1 q.2.2 q.1) (ibaLoop1 key b i j mt) := by
  induction b with
  | zero =>
    intro a i j mt
    simp [ibaLoop1]
  | succ b ih =>
    intro a i j mt
    rw [Nat.succ_add]
    rw [ibaLoop1, ibaLoop1]
    exact ih a _ _ _

theorem ibaLoop2_add (b : Nat) :
    ∀ (a i mt : Nat), ibaLoop2 (b + a) i mt =
      (fun q => ibaLoop2 a q.2 q.1) (ibaLoop2 b i mt) := by
  induction b with
  | zero =>
    intro a i mt
    simp [ibaLoop2]
  | succ b ih =>
    intro a i mt
    rw [Nat.succ_add]
    rw [ibaLoop2, ibaLoop2]
    exact ih a _ _

theorem genBlockLoop_add (b : Nat) :
    ∀ (a kk mt : Nat), genBlockLoop (b + a) kk mt =
      genBlockLoop a (kk + b) (genBlockLoop b kk mt) := by
  induction b with
  | zero =>
    intro a kk mt
    simp [genBlockLoop]
  | succ b ih =>
    intro a kk mt
    rw [Nat.succ_add]
    rw [genBlockLoop, genBlockLoop]
    rw [ih a _ _]
    congr 1
    omega

set_option maxRecDepth 100000 in
theorem mtStage1 : init_genrand 19650218 = mtL1 := by decide

set_option maxRecDepth 100000 in
theorem mtStageA1 : ibaLoop1 [1383577440] 312 1 0 mtL1 = (mtA1, 313, 0) := by decide

set_option maxRecDepth 100000 in
theorem mtStageA2 : ibaLoop1 [1383577440] 312 313 0 mtA1 = (mtL2, 2, 0) := by decide

theorem mtStageA : ibaLoop1 [1383577440] 624 1 0 mtL1 = (mtL2, 2, 0) := by
  have h := ibaLoop1_add [1383577440] 312 312 1 0 mtL1
  rw [show (312 + 312 : Nat) = 624 from rfl] at h
  rw [h, mtStageA1]
  exact mtStageA2

set_option maxRecDepth 100000 in
theorem mtStageB1 : ibaLoop2 312 2 mtL2 = (mtB1, 314) := by decide

set_option maxRecDepth 100000 in
theorem mtStageB2 : ibaLoop2 311 314 mtB1 = (mtL3, 2) := by decide

theorem mtStageB : ibaLoop2 623 2 mtL2 = (mtL3, 2) := by
  have h := ibaLoop2_add 312 311 2 mtL2
  rw [show (312 + 311 : Nat) = 623 from rfl] at h
  rw [h, mtStageB1]
  exact mtStageB2

theorem mtSeeded : mtFromSeed 1383577440 = ⟨lsetP mtL3 0 2147483648, 624⟩ := by
  unfold mtFromSeed init_by_array
  rw [show keyOfSeed 1383577440 = [1383577440] from by decide]
  rw [show (max 624 ([1383577440] : List Nat).length) = 624 from rfl]
  rw [mtStage1, mtStageA]
  show MTState.mk (lsetP (ibaLoop2 623 2 mtL2).1 0 2147483648) 624 = _
  rw [mtStageB]

set_option maxRecDepth 100000 in
theorem mtStageG1 : genBlockLoop 312 0 (lsetP mtL3 0 2147483648) = mtG1 := by decide

set_option maxRecDepth 100000 in
theorem mtStageG2 : genBlockLoop 312 312 mtG1 = mtL5 := by decide

theorem mtStageG : genBlockLoop 624 0 (lsetP mtL3 0 2147483648) = mtL5 := by
  have h := genBlockLoop_add 312 312 0 (lsetP mtL3 0 2147483648)
  rw [show (312 + 312 : Nat) = 624 from rfl] at h
  rw [h, mtStageG1]
  exact mtStageG2

theorem genrand_seeded :
    genrand ⟨lsetP mtL3 0 2147483648, 624⟩ = (1547374335, ⟨mtL5, 1⟩) := by
  unfold genrand
  rw [if_pos (show (624 : Nat) ≥ 624 from by decide)]
  rw [if_pos (show (624 : Nat) ≥ 624 from by decide)]
  rw [mtStageG]
  show (temper (lgetP mtL5 0), MTState.mk mtL5 (0 + 1)) = (1547374335, ⟨mtL5, 1⟩)
  rw [show temper (lgetP mtL5 0) = 1547374335 from by decide]

theorem sample_seeded :
    pySample ⟨lsetP mtL3 0 2147483648, 624⟩ ["m0", "m1"] 1 = some ["m1"] := by
  show (sampleLoop 1 0 ["m0", "m1"] ⟨lsetP mtL3 0 2147483648, 624⟩ 2).map Prod.fst
      = some ["m1"]
  rw [sampleLoop]
  rw [randbelow]
  rw [show getrandbits32 ⟨lsetP mtL3 0 2147483648, 624⟩ (bitLen 2) = (1, ⟨mtL5, 1⟩) from by
    unfold getrandbits32
    rw [genrand_seeded]
    exact rfl]
  decide

theorem pick_20250102_value :
    choose_modules ["m0", "m1"] 1 none "2025-01-02" = some ["m1"] := by
  unfold choose_modules
  rw [if_neg (show ¬ ((["m0", "m1"] : List String).isEmpty = true) from by decide)]
  rw [if_neg (show ¬ (1 ≥ (["m0", "m1"] : List String).length) from by decide)]
  rw [show date_seed none "2025-01-02" = 1383577440 from by decide]
  rw [mtSeeded]
  exact sample_seeded

/-! ## Claim theorems -/

/-- C8: name canonicalization to the "Last, First" form is idempotent — for
every input string, applying `ensure_last_first` twice yields the same
result as applying it once. -/
theorem ensure_last_first_idempotent (x : List Char) :
    ensure_last_first (ensure_last_first x) = ensure_last_first x := by
  by_cases h0 : sanitize x = []
  · rw [ensure_eq_empty h0, ensure_eq_empty (show sanitize [] = [] from rfl)]
  by_cases h1 : ',' ∈ sanitize x
  · rw [ensure_eq_comma h0 h1]
    refine ensure_fixed_point_comma _ _ (pyStrip_idem _) (pyStrip_idem _) ?_
    intro hmem
    have h2 := mem_of_mem_pyStrip hmem
    have h3 := List.mem_takeWhile_imp h2
    simp at h3
  by_cases h2 : (pySplitWs (sanitize x)).length ≥ 2
  · rw [ensure_eq_tokens h0 h1 h2]
    have hne : pySplitWs (sanitize x) ≠ [] := by
      intro h
      rw [h] at h2
      simp at h2
    have hlast := pySplitWs_sound (sanitize x) _ (getLastD_mem hne [])
    have hhead := pySplitWs_sound (sanitize x) _ (headD_mem hne [])
    refine ensure_fixed_point_comma _ _ ?_ ?_ ?_
    · exact pyStrip_eq_self_of_no_ws (fun c hc => (hlast.2 c hc).1)
    · exact pyStrip_eq_self_of_no_ws (fun c hc => (hhead.2 c hc).1)
    · intro hmem
      exact h1 ((hlast.2 _ hmem).2)
  · rw [ensure_eq_single h0 h1 h2]
    exact ensure_fixed_point_nocomma _ (sanitize_fix x) h1 (by omega)

/-- C4 (amended): building search variants (`_name_variants`) always returns
a non-empty list whose first element is the canonical "Last, First" form
(`ensure_last_first` of the input), so the canonical form is always tried
first, and for non-blank input that canonical head is itself non-empty.
The last-name-only form is not among the generated variants; it is only an
extra unordered search term inside `choose_users_and_continue`. -/
theorem name_variants_head_canonical (x : List Char) :
    name_variants x ≠ [] ∧
    (name_variants x).head? = some (ensure_last_first x) ∧
    (sanitize x ≠ [] → ensure_last_first x ≠ []) := by
  have hhead : (name_variants x).head? = some (ensure_last_first x) := by
    by_cases h1 : ',' ∈ pyStrip x
    · have hne : sanitize x ≠ [] := List.ne_nil_of_mem h1
      rw [name_variants_eq_comma h1, nv_core_head, ensure_eq_comma hne h1]
      rfl
    · by_cases h2 : (pySplitWs (pyStrip x)).length ≥ 2
      · have hne : sanitize x ≠ [] := by
          intro h
          rw [show pyStrip x = sanitize x from rfl, h] at h2
          simp [pySplitWs] at h2
        rw [name_variants_eq_tokens h1 h2, nv_core_head,
          ensure_eq_tokens hne h1 h2]
        rfl
      · rw [name_variants_eq_single h1 h2]
        by_cases h0 : sanitize x = []
        · rw [ensure_eq_empty h0, show pyStrip x = sanitize x from rfl, h0]
          rfl
        · rw [ensure_eq_single h0 h1 h2]
          rfl
  refine ⟨?_, hhead, ?_⟩
  · intro h
    rw [h] at hhead
    simp at hhead
  · intro h0
    by_cases h1 : ',' ∈ pyStrip x
    · rw [ensure_eq_comma h0 h1]
      intro h
      simpa using congrArg List.length h
    · by_cases h2 : (pySplitWs (pyStrip x)).length ≥ 2
      · rw [ensure_eq_tokens h0 h1 h2]
        intro h
        simpa using congrArg List.length h
      · rw [ensure_eq_single h0 h1 h2]
        exact h0

/-- C4 witness: the amended theorem applied at the concrete name
"Smith, John" (non-blank input, non-empty canonical head). -/
theorem name_variants_head_canonical_witness :
    sanitize ("Smith, John").toList ≠ [] ∧
    ensure_last_first ("Smith, John").toList ≠ [] :=
  ⟨by decide, (name_variants_head_canonical (("Smith, John").toList)).2.2 (by decide)⟩

/-- C4 counterexample: the claim promises canonical, inverted and then the
last-name-only form; for "Smith, John" the code produces exactly
["Smith, John", "John Smith"] and the last-name-only variant "Smith" is
absent. -/
theorem name_variants_counterexample :
    name_variants ("Smith, John").toList =
      [("Smith, John").toList, ("John Smith").toList] ∧
    ("Smith").toList ∉ name_variants ("Smith, John").toList := by
  constructor
  · decide
  · decide

theorem process_names_spec (matched : List Char → Bool) :
    ∀ names, process_names matched names =
      (((names.map pyStrip).filter (fun r => r ≠ [] ∧ matched r)).length,
       (names.map pyStrip).filter (fun r => r ≠ [] ∧ ¬ matched r)) := by
  intro names
  induction names with
  | nil => rfl
  | cons raw rest ih =>
    rw [process_names, ih]
    by_cases h0 : pyStrip raw = []
    · simp [h0]
    · by_cases h1 : matched (pyStrip raw)
      · simp [h0, h1]
      · simp [h0, h1]

theorem process_names_total (matched : List Char → Bool) :
    ∀ names, (process_names matched names).1 +
      ((process_names matched names).2).length =
      ((names.map pyStrip).filter (fun r => r ≠ [])).length := by
  intro names
  induction names with
  | nil => rfl
  | cons raw rest ih =>
    rw [process_names]
    by_cases h0 : pyStrip raw = []
    · simpa [h0] using ih
    · by_cases h1 : matched (pyStrip raw)
      · simp [h0, h1] at ih ⊢
        omega
      · simp [h0, h1] at ih ⊢
        omega

theorem firstNumberTok_ne_nil : ∀ (l t : List Char), firstNumberTok l = some t → t ≠ [] := by
  intro l
  induction l with
  | nil => intro t h; simp [firstNumberTok] at h
  | cons c cs ih =>
    intro t h
    rw [firstNumberTok] at h
    by_cases hd : c.isDigit
    · rw [if_pos hd, Option.some_inj] at h
      subst h
      split
      · split
        · simp
        · simp
      · simp
    · rw [if_neg hd] at h
      exact ih t h

/-- C1: the payload unwrapper resolves by the precedence order exact-list,
named-wrapper, single-list-heuristic, nested-wrapper, string-reparse
(recursive through the parse oracle), and fails (`none`, the spec's
`ShapeError`) when nothing applies — in particular on the number 42. -/
theorem unwrap_units_precedence :
    (∀ parse fuel xs, unwrap_units parse fuel (JVal.jarr xs) = some xs) ∧
    (∀ parse fuel m l, findWrapperArr m = some l →
      unwrap_units parse fuel (JVal.jobj m) = some l) ∧
    (∀ parse fuel m l, findWrapperArr m = none → listVals m = [l] →
      unwrap_units parse fuel (JVal.jobj m) = some l) ∧
    (∀ parse fuel m l, findWrapperArr m = none → (listVals m).length ≠ 1 →
      nestedWrapperArr m = some l →
      unwrap_units parse fuel (JVal.jobj m) = some l) ∧
    (∀ parse fuel s, unwrap_units parse (fuel + 1) (JVal.jstr s) =
      (parse s).bind (unwrap_units parse fuel)) ∧
    (∀ parse fuel m, findWrapperArr m = none → (listVals m).length ≠ 1 →
      nestedWrapperArr m = none → unwrap_units parse fuel (JVal.jobj m) = none) ∧
    (∀ parse fuel, unwrap_units parse fuel (JVal.jnum 42) = none) := by
  refine ⟨fun _ f _ => by cases f <;> rfl, ?_, ?_, ?_, fun _ _ _ => rfl, ?_, fun _ f => by cases f <;> rfl⟩
  · intro parse fuel m l h
    simp [unwrap_units, h]
  · intro parse fuel m l h1 h2
    simp [unwrap_units, h1, h2]
  · intro parse fuel m l h1 h2 h3
    rcases hlv : listVals m with _ | ⟨a, _ | ⟨b, t⟩⟩
    · simp [unwrap_units, h1, hlv, h3]
    · rw [hlv] at h2
      simp at h2
    · simp [unwrap_units, h1, hlv, h3]
  · intro parse fuel m h1 h2 h3
    rcases hlv : listVals m with _ | ⟨a, _ | ⟨b, t⟩⟩
    · simp [unwrap_units, h1, hlv, h3]
    · rw [hlv] at h2
      simp at h2
    · simp [unwrap_units, h1, hlv, h3]

/-- C1 witness: the precedence theorem applied at the spec's own test
vectors (a bare list, a "data" wrapper, the single-list heuristic, the
nested "results" wrapper, a string under a no-parse oracle, and 42). -/
theorem unwrap_units_precedence_witness :
    unwrap_units jparse0 1 (JVal.jarr [JVal.jnull]) = some [JVal.jnull] ∧
    unwrap_units jparse0 1 (JVal.jobj [("data", JVal.jarr [JVal.jnull])]) =
      some [JVal.jnull] ∧
    unwrap_units jparse0 1
      (JVal.jobj [("a", JVal.jstr "x"), ("b", JVal.jarr [JVal.jnum 7])]) =
      some [JVal.jnum 7] ∧
    unwrap_units jparse0 1
      (JVal.jobj [("results", JVal.jobj [("inner", JVal.jarr [JVal.jbool true])])]) =
      some [JVal.jbool true] ∧
    unwrap_units jparse0 1 (JVal.jstr "oops") = none ∧
    unwrap_units jparse0 1 (JVal.jnum 42) = none :=
  ⟨unwrap_units_precedence.1 jparse0 1 [JVal.jnull],
   unwrap_units_precedence.2.1 jparse0 1 _ _ rfl,
   unwrap_units_precedence.2.2.1 jparse0 1 _ _ rfl rfl,
   unwrap_units_precedence.2.2.2.1 jparse0 1 _ _ rfl (by decide) rfl,
   (unwrap_units_precedence.2.2.2.2.1 jparse0 0 "oops").trans rfl,
   unwrap_units_precedence.2.2.2.2.2.2 jparse0 1⟩

/-- C2: the roster's flat name list equals the first-seen-order dedup of the
concatenated member lists: it has no duplicates, contains exactly the names
that occur in some unit, lists them ordered by first occurrence, and on the
units \x7bR1: [A,B], R26: [B,C]\x7d it is [A,B,C]. -/
theorem build_flat_first_seen_dedup (units : List (String × List String)) :
    build_flat units = keepFirsts (roster_flat units) ∧
    (build_flat units).Nodup ∧
    (∀ a, a ∈ build_flat units ↔ a ∈ roster_flat units) ∧
    (build_flat units).Pairwise
      (fun a b => (roster_flat units).indexOf a < (roster_flat units).indexOf b) ∧
    build_flat [("R1", ["A", "B"]), ("R26", ["B", "C"])] = ["A", "B", "C"] := by
  have he : build_flat units = keepFirsts (roster_flat units) :=
    pyDedup_eq_keepFirsts (roster_flat units)
  refine ⟨he, ?_, ?_, ?_, by decide⟩
  · rw [he]
    exact nodup_keepFirsts _
  · intro a
    rw [he]
    exact mem_keepFirsts _ a
  · rw [he]
    exact pairwise_indexOf_keepFirsts _

/-- C2 witness: the theorem applied at the spec's two-unit example. -/
theorem build_flat_first_seen_dedup_witness :
    build_flat [("R1", ["A", "B"]), ("R26", ["B", "C"])] = ["A", "B", "C"] ∧
    (build_flat [("R1", ["A", "B"]), ("R26", ["B", "C"])]).Nodup :=
  ⟨(build_flat_first_seen_dedup []).2.2.2.2,
   (build_flat_first_seen_dedup [("R1", ["A", "B"]), ("R26", ["B", "C"])]).2.1⟩

/-- C3: with several visible candidates and a known first-name token, the
matcher selects a candidate whose visible text contains the token
(case-insensitively); the plain first visible match is taken only when no
candidate contains the token.  On candidates "Smith, Robert", "Smith, John"
with token "JOHN" it selects "Smith, John", not the first listed entry. -/
theorem pick_candidate_disambiguation (cands : List (List Char)) (fu : List Char)
    (hlen : cands.length > 1) (hfu : fu ≠ []) :
    ((∃ t ∈ cands, fu <:+: toUpperL (pyStrip t)) →
      ∃ t, pick_candidate cands fu = some t ∧ fu <:+: toUpperL (pyStrip t)) ∧
    ((∀ t ∈ cands, ¬ fu <:+: toUpperL (pyStrip t)) →
      pick_candidate cands fu = cands.head?) ∧
    pick_candidate [("Smith, Robert").toList, ("Smith, John").toList]
      (("JOHN").toList) = some (("Smith, John").toList) := by
  refine ⟨?_, ?_, by decide⟩
  · rintro ⟨t, ht, hp⟩
    have hsome : (cands.find?
        (fun txt => decide (fu <:+: toUpperL (pyStrip txt)))).isSome := by
      rw [List.find?_isSome]
      exact ⟨t, ht, by simpa using hp⟩
    obtain ⟨u, hu⟩ := Option.isSome_iff_exists.mp hsome
    refine ⟨u, ?_, by simpa using List.find?_some hu⟩
    unfold pick_candidate
    rw [if_pos ⟨hlen, hfu⟩, hu]
  · intro hall
    have hnone : cands.find?
        (fun txt => decide (fu <:+: toUpperL (pyStrip txt))) = none := by
      rw [List.find?_eq_none]
      intro x hx
      simpa using hall x hx
    unfold pick_candidate
    rw [if_pos ⟨hlen, hfu⟩, hnone]

/-- C3 witness: the theorem applied at the spec's Smith example, with both
hypotheses and the existence premise discharged concretely. -/
theorem pick_candidate_disambiguation_witness :
    ∃ t, pick_candidate [("Smith, Robert").toList, ("Smith, John").toList]
        (("JOHN").toList) = some t ∧
      ("JOHN").toList <:+: toUpperL (pyStrip t) :=
  (pick_candidate_disambiguation
      [("Smith, Robert").toList, ("Smith, John").toList]
      (("JOHN").toList) (by decide) (by decide)).1
    ⟨("Smith, John").toList, by decide, by decide⟩

/-- C5 (amended): on the Add Users surface a single activation (click) is
attempted first; a double activation happens exactly when the selected pane
exists and the first verification failed; no explicit add control is used. -/
theorem select_candidate_click_first (hasPane c1 c2 : Bool) :
    (select_candidate hasPane c1 c2).1.head? = some SelAction.singleClick ∧
    (SelAction.doubleClick ∈ (select_candidate hasPane c1 c2).1 ↔
      (hasPane = true ∧ c1 = false)) ∧
    SelAction.addControl ∉ (select_candidate hasPane c1 c2).1 := by
  cases hasPane <;> cases c1 <;> cases c2 <;> decide

/-- C5 (amended) witness: the theorem instantiated at the failing-pane case. -/
theorem select_candidate_click_first_witness :
    (select_candidate true false false).1.head? = some SelAction.singleClick ∧
    SelAction.addControl ∉ (select_candidate true false false).1 :=
  ⟨(select_candidate_click_first true false false).1,
   (select_candidate_click_first true false false).2.2⟩

/-- C5 counterexample: the claim says the double activation is attempted
first with a single-click-plus-add fallback; in the code the first action
of the sequence is the single click (never the double click), and the add
control never occurs. -/
theorem select_candidate_counterexample :
    (select_candidate true false false).1.head? = some SelAction.singleClick ∧
    (select_candidate true false false).1.head? ≠ some SelAction.doubleClick ∧
    SelAction.addControl ∉ (select_candidate true false false).1 := by
  decide

/-- C6: the matcher records exactly one outcome per non-blank name — the
added count and the ordered misses list exactly partition the non-blank
names, so no miss aborts the loop — and the continuation control is
activated regardless, including when every name misses. -/
theorem choose_users_never_aborts (matched : List Char → Bool)
    (names : List (List Char)) :
    (choose_users_and_continue matched names).2 = true ∧
    (choose_users_and_continue matched names).1.1 =
      ((names.map pyStrip).filter (fun r => r ≠ [] ∧ matched r)).length ∧
    (choose_users_and_continue matched names).1.2 =
      (names.map pyStrip).filter (fun r => r ≠ [] ∧ ¬ matched r) ∧
    (choose_users_and_continue matched names).1.1 +
      ((choose_users_and_continue matched names).1.2).length =
      ((names.map pyStrip).filter (fun r => r ≠ [])).length := by
  refine ⟨rfl, ?_, ?_, ?_⟩
  · exact congrArg Prod.fst (process_names_spec matched names)
  · exact congrArg Prod.snd (process_names_spec matched names)
  · exact process_names_total matched names

/-- C6 witness: all-miss run on two names still clicks the continuation and
records both misses. -/
theorem choose_users_never_aborts_witness :
    (choose_users_and_continue (fun _ => false)
      [("Smith, John").toList, ("Doe, Jane").toList]).2 = true ∧
    (choose_users_and_continue (fun _ => false)
        [("Smith, John").toList, ("Doe, Jane").toList]).1.1 +
      ((choose_users_and_continue (fun _ => false)
        [("Smith, John").toList, ("Doe, Jane").toList]).1.2).length = 2 :=
  ⟨(choose_users_never_aborts (fun _ => false)
      [("Smith, John").toList, ("Doe, Jane").toList]).1,
   by
    rw [(choose_users_never_aborts (fun _ => false)
      [("Smith, John").toList, ("Doe, Jane").toList]).2.2.2]
    decide⟩

/-- C7 (amended): the duration value written is the first decimal numeral of
the input, passed through unchanged as hours ("2 hours" → "2", "1.5" →
"1.5", "90" → "90"), with default "2" when no numeral occurs; the written
value is never empty.  No minutes-to-hours conversion and no clamping
happen. -/
theorem fill_duration_first_number :
    fill_duration_hours (("2 hours").toList) = ("2").toList ∧
    fill_duration_hours (("1.5").toList) = ("1.5").toList ∧
    fill_duration_hours (("90").toList) = ("90").toList ∧
    fill_duration_hours (("").toList) = ("2").toList ∧
    fill_duration_hours (("no number here").toList) = ("2").toList ∧
    ∀ s, fill_duration_hours s ≠ [] := by
  refine ⟨by decide, by decide, by decide, by decide, by decide, ?_⟩
  intro s
  unfold fill_duration_hours
  cases h : firstNumberTok (pyStrip s) with
  | none => simp
  | some t => simpa using firstNumberTok_ne_nil _ t h

/-- C7 (amended) witness: the non-emptiness clause applied at "90". -/
theorem fill_duration_first_number_witness :
    fill_duration_hours (("90").toList) ≠ [] :=
  fill_duration_first_number.2.2.2.2.2 (("90").toList)

/-- C7 counterexample: the claim requires "90" minutes to become 1.50 hours
and "5 hours" to clamp to 2.00; the code writes "90" and "5" verbatim. -/
theorem fill_duration_counterexample :
    fill_duration_hours (("90").toList) = ("90").toList ∧
    fill_duration_hours (("90").toList) ≠ ("1.5").toList ∧
    fill_duration_hours (("90").toList) ≠ ("1.50").toList ∧
    fill_duration_hours (("5 hours").toList) = ("5").toList ∧
    fill_duration_hours (("5 hours").toList) ≠ ("2").toList ∧
    fill_duration_hours (("5 hours").toList) ≠ ("2.00").toList := by
  decide

/-- C10: if unit filtering would remove every entry the original roster is
returned unchanged, and a roster that is not empty-like never filters to an
empty-like result. -/
theorem filter_roster_by_units_never_empty (roster : JVal) (units : List String) :
    (jIsEmptyLike (filter_any (units.map normalize_unit) roster) = true →
      filter_roster_by_units roster units = roster) ∧
    (jIsEmptyLike roster = false →
      jIsEmptyLike (filter_roster_by_units roster units) = false) := by
  constructor
  · intro h
    unfold filter_roster_by_units
    by_cases hu : units.isEmpty
    · rw [if_pos hu]
    · rw [if_neg hu, if_pos h]
  · intro h
    unfold filter_roster_by_units
    by_cases hu : units.isEmpty
    · rw [if_pos hu]
      exact h
    · rw [if_neg hu]
      by_cases he : jIsEmptyLike (filter_any (units.map normalize_unit) roster) = true
      · rw [if_pos he]
        exact h
      · rw [if_neg he]
        exact Bool.not_eq_true _ ▸ he

/-- C10 witness: a one-item roster filtered by a unit list matching nothing
falls back to the unfiltered roster and stays non-empty. -/
theorem filter_roster_by_units_never_empty_witness :
    filter_roster_by_units (JVal.jarr [JVal.jobj [("Unit", JVal.jstr "R1")]])
        ["ZZZ"] = JVal.jarr [JVal.jobj [("Unit", JVal.jstr "R1")]] ∧
    jIsEmptyLike (filter_roster_by_units
        (JVal.jarr [JVal.jobj [("Unit", JVal.jstr "R1")]]) ["ZZZ"]) = false :=
  ⟨(filter_roster_by_units_never_empty
      (JVal.jarr [JVal.jobj [("Unit", JVal.jstr "R1")]]) ["ZZZ"]).1 (by decide),
   (filter_roster_by_units_never_empty
      (JVal.jarr [JVal.jobj [("Unit", JVal.jstr "R1")]]) ["ZZZ"]).2 (by decide)⟩

/-- C9 (amended): the date-based pick is deterministic in the ISO date
through hashing, not through a day-of-year index: the PRNG seed is
sha256(date) mod 2^31-1 (1383577440 for 2025-01-02), the sample drawn with
it is a fixed function of the date and pool (["m1"] from ["m0", "m1"] with
one pick on 2025-01-02), and when the per-day count covers the pool the
whole pool is chosen.  No unconsumed-item tracking exists in this code. -/
theorem date_pick_seeded (modules : List String) (k : Nat)
    (hk : k ≥ modules.length) (hne : modules ≠ []) :
    choose_modules modules k none "2025-01-02" = some modules ∧
    date_seed none "2025-01-02" = 1383577440 ∧
    choose_modules ["m0", "m1"] 1 none "2025-01-02" = some ["m1"] := by
  refine ⟨?_, by decide, pick_20250102_value⟩
  unfold choose_modules
  rw [if_neg (by simpa using hne), if_pos hk]

/-- C9 witness: the amended theorem applied at a one-module pool whose
per-day count covers it. -/
theorem date_pick_seeded_witness :
    choose_modules ["solo"] 1 none "2025-01-02" = some ["solo"] :=
  (date_pick_seeded ["solo"] 1 (by decide) (by decide)).1

/-- C9 counterexample: on 2025-01-02 (ordinal day 2 of the year) with pool
[m0, m1], the claimed index day-of-year mod count is 0, so the claimed pick
is "m0"; the code picks "m1" via its sha256-seeded PRNG sample. -/
theorem date_pick_counterexample :
    dayOfYear 2025 1 2 % 2 = 0 ∧
    choose_modules ["m0", "m1"] 1 none "2025-01-02" = some ["m1"] ∧
    (["m1"] : List String) ≠
      [(["m0", "m1"] : List String).getD (dayOfYear 2025 1 2 % 2) ""] :=
  ⟨by decide, pick_20250102_value, by decide⟩

end VSA
